import Mathlib

/-!
Shallow embedding of the tiny_sid_chip layout generators and rule checker
(src/layout/*.py), together with theorems checking the specification's claims.

Conventions of the embedding:
* Real-valued micrometre coordinates of the Python sources are modelled as
  exact rationals (ℚ).
* `rect(x1, y1, x2, y2)` in `sg13g2_layers.py` converts µm to integer database
  units (1 nm grid) through `um` before a box is stored; the embedding records
  each inserted rectangle by the µm arguments handed to `rect`, and `rectDb`
  performs the grid conversion where a claim is about stored coordinates.
* A cell is the ordered list of rectangle insertions it received, plus the
  ordered list of text labels; builders return their connection points exactly
  as the Python functions do.
-/

/-- Python 3 `round` (round half to even) on a rational, as used by `um` in
`sg13g2_layers.py`. -/
def pyround (q : ℚ) : ℤ :=
  let f : ℤ := ⌊q⌋
  if q - f < 1/2 then f
  else if 1/2 < q - f then f + 1
  else if f % 2 = 0 then f else f + 1

/-- `um` from `sg13g2_layers.py`: convert µm to database units on the 1 nm grid
(`int(round(val / 0.001))`). -/
def um (v : ℚ) : ℤ := pyround (v / 0.001)

/-- A GDS layer: (layer number, datatype). -/
abbrev Layer := ℤ × ℤ

/-- A rectangle recorded by its µm arguments to `rect`. -/
structure Rect where
  x1 : ℚ
  y1 : ℚ
  x2 : ℚ
  y2 : ℚ
deriving DecidableEq

/-- A rectangle in integer database units, as actually stored in a cell
(`pya.Box(um x1, um y1, um x2, um y2)`). -/
structure BoxDb where
  x1 : ℤ
  y1 : ℤ
  x2 : ℤ
  y2 : ℤ
deriving DecidableEq

/-- Grid conversion performed by `rect` in `sg13g2_layers.py`. -/
def rectDb (r : Rect) : BoxDb := ⟨um r.x1, um r.y1, um r.x2, um r.y2⟩

/-- One rectangle insertion into a cell: `cell.shapes(layer).insert(rect(...))`. -/
structure Emit where
  layer : Layer
  box : Rect
deriving DecidableEq

/-- A text label, stored at the integer centre of its pin rectangle. -/
structure PinLabel where
  lyr : Layer
  name : String
  cx : ℤ
  cy : ℤ
deriving DecidableEq

/-- A finished cell handed back by a macro driver. -/
structure CellQ where
  cellName : String
  emits : List Emit
  labels : List PinLabel
deriving DecidableEq

/-- `concatMap` used to model a Python `for` loop that inserts geometry per
iteration. -/
def emitConcat {α : Type} (f : α → List Emit) : List α → List Emit
  | [] => []
  | a :: l => f a ++ emitConcat f l

-- ===========================================================================
-- sg13g2_layers.py : layer map and design-rule constants
-- ===========================================================================

def L_ACTIV : Layer := (1, 0)
def L_GATPOLY : Layer := (5, 0)
def L_CONT : Layer := (6, 0)
def L_NSD : Layer := (7, 0)
def L_METAL1 : Layer := (8, 0)
def L_METAL2 : Layer := (10, 0)
def L_PSD : Layer := (14, 0)
def L_VIA1 : Layer := (19, 0)
def L_SALBLOCK : Layer := (28, 0)
def L_VIA2 : Layer := (29, 0)
def L_METAL3 : Layer := (30, 0)
def L_NWELL : Layer := (31, 0)
def L_CMIM : Layer := (36, 0)
def L_THICKGOX : Layer := (44, 0)
def L_PWELL : Layer := (46, 0)
def L_VIA3 : Layer := (49, 0)
def L_METAL4 : Layer := (50, 0)
def L_VIA4 : Layer := (66, 0)
def L_METAL5 : Layer := (67, 0)
def L_TOPVIA1 : Layer := (125, 0)
def L_TOPMETAL1 : Layer := (126, 0)
def L_TOPVIA2 : Layer := (133, 0)
def L_TOPMETAL2 : Layer := (134, 0)

def L_METAL1_PIN : Layer := (8, 2)
def L_METAL1_LBL : Layer := (8, 25)
def L_METAL2_PIN : Layer := (10, 2)
def L_METAL2_LBL : Layer := (10, 25)
def L_METAL3_PIN : Layer := (30, 2)
def L_METAL3_LBL : Layer := (30, 25)

def CONT_SIZE : ℚ := 0.16
def CONT_SPACE : ℚ := 0.18
def CONT_ENC_ACTIV : ℚ := 0.08
def CONT_ENC_GATPOLY : ℚ := 0.08
def CONT_ENC_M1 : ℚ := 0.04

def M1_WIDTH : ℚ := 0.16
def M1_SPACE : ℚ := 0.18

def M2_WIDTH : ℚ := 0.20
def M2_SPACE : ℚ := 0.21

def VIA1_SIZE : ℚ := 0.19
def VIA1_SPACE : ℚ := 0.22
def VIA1_ENC_M1 : ℚ := 0.01
def VIA1_ENC_M2 : ℚ := 0.005

def VIA2_SIZE : ℚ := 0.19
def VIA2_SPACE : ℚ := 0.22
def VIA2_ENC_M2 : ℚ := 0.005
def VIA2_ENC_M3 : ℚ := 0.005

def GATPOLY_WIDTH : ℚ := 0.13
def GATPOLY_SPACE : ℚ := 0.18
def GATPOLY_EXT : ℚ := 0.18

def ACTIV_WIDTH : ℚ := 0.15
def ACTIV_SPACE : ℚ := 0.21

def NWELL_WIDTH : ℚ := 0.62
def NWELL_SPACE : ℚ := 0.62
def NWELL_ENC_ACTIV : ℚ := 0.31

def SAL_ENC_GATPOLY : ℚ := 0.20
def SAL_SPACE_CONT : ℚ := 0.20
def SAL_MIN_LEN : ℚ := 0.50

def MIM_MIN_SIZE : ℚ := 1.14
def MIM_SPACE : ℚ := 0.60
def MIM_ENC_M5 : ℚ := 0.60

def RPPD_SHEET_R : ℚ := 315
def MIM_CAP_DENSITY : ℚ := 1.5

/-- `add_pin_label` from `sg13g2_layers.py`: inserts the pin rectangle and a
text at the integer centre of the stored (dbu) box; Python `//` is floor
division. -/
def add_pin_label (layer_pin layer_lbl : Layer) (box : Rect) (nm : String) :
    Emit × PinLabel :=
  let b := rectDb box
  (⟨layer_pin, box⟩,
   ⟨layer_lbl, nm, Int.fdiv (b.x1 + b.x2) 2, Int.fdiv (b.y1 + b.y2) 2⟩)

/-- One `add_pin_label` invocation (arguments of the call). -/
structure PinCall where
  pinL : Layer
  lblL : Layer
  box : Rect
  nm : String

def pinCallEmit (c : PinCall) : Emit := (add_pin_label c.pinL c.lblL c.box c.nm).1

def pinCallLabel (c : PinCall) : PinLabel := (add_pin_label c.pinL c.lblL c.box c.nm).2

/-- Modelled from the spec: `draw_ptap` (the Substrate Tie primitive) is called
by every macro driver but its definition is not among the source files here,
only its call sites.  Per the spec (§4.1) its input is a placement coordinate
and it "emits a fixed small tie structure" used for latch-up prevention — a
p-substrate tap: pSD-implanted Activ with a contact and its Metal1 pad, all of
fixed size, centred at the given coordinate. -/
def draw_ptap (x y : ℚ) : List Emit :=
  [ ⟨L_ACTIV, ⟨x - 0.25, y - 0.25, x + 0.25, y + 0.25⟩⟩,
    ⟨L_PSD, ⟨x - 0.35, y - 0.35, x + 0.35, y + 0.35⟩⟩,
    ⟨L_CONT, ⟨x - CONT_SIZE / 2, y - CONT_SIZE / 2,
              x + CONT_SIZE / 2, y + CONT_SIZE / 2⟩⟩,
    ⟨L_METAL1, ⟨x - CONT_SIZE / 2 - CONT_ENC_M1, y - CONT_SIZE / 2 - CONT_ENC_M1,
                x + CONT_SIZE / 2 + CONT_ENC_M1, y + CONT_SIZE / 2 + CONT_ENC_M1⟩⟩ ]

/-- PR boundary layer used by `gen_r2r_dac.py`, `gen_bias_dac.py` and
`gen_sar_adc.py` (`layout.layer(189, 0)`). -/
def L_PRBND : Layer := (189, 0)

-- ===========================================================================
-- gen_r2r_dac.py : 8-bit R-2R DAC
-- ===========================================================================

namespace R2R

def RHIGH_SHEET_R : ℚ := 1300
def R_TARGET : ℚ := 2000
def R_WIDTH : ℚ := 2
def R_LENGTH : ℚ := R_TARGET / RHIGH_SHEET_R * R_WIDTH
def R2_LENGTH : ℚ := R_LENGTH * 2

def NMOS_W : ℚ := 2
def NMOS_L : ℚ := 0.13

def NBITS : ℕ := 8
def MACRO_W : ℚ := 45
def MACRO_H : ℚ := 60

def PAD_W : ℚ := CONT_SIZE + 2 * CONT_ENC_GATPOLY
def R_TOTAL : ℚ := PAD_W + SAL_SPACE_CONT + R_LENGTH + SAL_SPACE_CONT + PAD_W
def R2_TOTAL : ℚ := PAD_W + SAL_SPACE_CONT + R2_LENGTH + SAL_SPACE_CONT + PAD_W
def PITCH_X : ℚ := R_TOTAL + 0.5

/-- Return value of `draw_resistor_h` / `draw_resistor_v`, plus the rectangles
the call inserted. -/
structure ResistorOut where
  emits : List Emit
  c1 : ℚ × ℚ
  c2 : ℚ × ℚ
  total : ℚ

/-- `draw_resistor_h`: horizontal rhigh resistor at (x, y); `c1` is the left
contact centre, `c2` the right one. -/
def draw_resistor_h (x y length : ℚ) (width : ℚ := R_WIDTH) : ResistorOut :=
  let pad := PAD_W
  let total_l := pad + SAL_SPACE_CONT + length + SAL_SPACE_CONT + pad
  let enc : ℚ := 0.1
  let sal_x1 := x + pad + SAL_SPACE_CONT - SAL_ENC_GATPOLY
  let sal_x2 := x + pad + SAL_SPACE_CONT + length + SAL_ENC_GATPOLY
  let cx_l := x + pad / 2 - CONT_SIZE / 2
  let cy := y + width / 2 - CONT_SIZE / 2
  let cx_r := x + total_l - pad / 2 - CONT_SIZE / 2
  { emits :=
      [ ⟨L_GATPOLY, ⟨x, y, x + total_l, y + width⟩⟩,
        ⟨L_PSD, ⟨x - enc, y - enc, x + total_l + enc, y + width + enc⟩⟩,
        ⟨L_SALBLOCK, ⟨sal_x1, y - SAL_ENC_GATPOLY, sal_x2, y + width + SAL_ENC_GATPOLY⟩⟩,
        ⟨L_CONT, ⟨cx_l, cy, cx_l + CONT_SIZE, cy + CONT_SIZE⟩⟩,
        ⟨L_METAL1, ⟨cx_l - CONT_ENC_M1, cy - CONT_ENC_M1,
                    cx_l + CONT_SIZE + CONT_ENC_M1, cy + CONT_SIZE + CONT_ENC_M1⟩⟩,
        ⟨L_CONT, ⟨cx_r, cy, cx_r + CONT_SIZE, cy + CONT_SIZE⟩⟩,
        ⟨L_METAL1, ⟨cx_r - CONT_ENC_M1, cy - CONT_ENC_M1,
                    cx_r + CONT_SIZE + CONT_ENC_M1, cy + CONT_SIZE + CONT_ENC_M1⟩⟩ ],
    c1 := (x + pad / 2, y + width / 2),
    c2 := (x + total_l - pad / 2, y + width / 2),
    total := total_l }

/-- `draw_resistor_v`: vertical rhigh resistor at (x, y); `c1` is the bottom
contact centre, `c2` the top one. -/
def draw_resistor_v (x y length : ℚ) (width : ℚ := R_WIDTH) : ResistorOut :=
  let pad := PAD_W
  let total_h := pad + SAL_SPACE_CONT + length + SAL_SPACE_CONT + pad
  let enc : ℚ := 0.1
  let sal_y1 := y + pad + SAL_SPACE_CONT - SAL_ENC_GATPOLY
  let sal_y2 := y + pad + SAL_SPACE_CONT + length + SAL_ENC_GATPOLY
  let cx := x + width / 2 - CONT_SIZE / 2
  let cy_b := y + pad / 2 - CONT_SIZE / 2
  let cy_t := y + total_h - pad / 2 - CONT_SIZE / 2
  { emits :=
      [ ⟨L_GATPOLY, ⟨x, y, x + width, y + total_h⟩⟩,
        ⟨L_PSD, ⟨x - enc, y - enc, x + width + enc, y + total_h + enc⟩⟩,
        ⟨L_SALBLOCK, ⟨x - SAL_ENC_GATPOLY, sal_y1, x + width + SAL_ENC_GATPOLY, sal_y2⟩⟩,
        ⟨L_CONT, ⟨cx, cy_b, cx + CONT_SIZE, cy_b + CONT_SIZE⟩⟩,
        ⟨L_METAL1, ⟨cx - CONT_ENC_M1, cy_b - CONT_ENC_M1,
                    cx + CONT_SIZE + CONT_ENC_M1, cy_b + CONT_SIZE + CONT_ENC_M1⟩⟩,
        ⟨L_CONT, ⟨cx, cy_t, cx + CONT_SIZE, cy_t + CONT_SIZE⟩⟩,
        ⟨L_METAL1, ⟨cx - CONT_ENC_M1, cy_t - CONT_ENC_M1,
                    cx + CONT_SIZE + CONT_ENC_M1, cy_t + CONT_SIZE + CONT_ENC_M1⟩⟩ ],
    c1 := (x + width / 2, y + pad / 2),
    c2 := (x + width / 2, y + total_h - pad / 2),
    total := total_h }

/-- Return value of `draw_nmos` (the `{'gate','source','drain','width'}` dict),
plus the rectangles the call inserted. -/
structure NmosOut where
  emits : List Emit
  gate : ℚ × ℚ
  source : ℚ × ℚ
  drain : ℚ × ℚ
  width : ℚ

/-- `draw_nmos` from `gen_r2r_dac.py`. -/
def draw_nmos (x y : ℚ) (w : ℚ := NMOS_W) (l : ℚ := NMOS_L) : NmosOut :=
  let sd_ext := CONT_SIZE + 2 * CONT_ENC_ACTIV
  let act_len := sd_ext + l + sd_ext
  let gp_x1 := x + sd_ext
  let s_cx := x + sd_ext / 2 - CONT_SIZE / 2
  let s_cy := y + w / 2 - CONT_SIZE / 2
  let d_cx := gp_x1 + l + (sd_ext - CONT_SIZE) / 2
  { emits :=
      [ ⟨L_ACTIV, ⟨x, y, x + act_len, y + w⟩⟩,
        ⟨L_NSD, ⟨x - 0.1, y - 0.1, x + act_len + 0.1, y + w + 0.1⟩⟩,
        ⟨L_GATPOLY, ⟨gp_x1, y - GATPOLY_EXT, gp_x1 + l, y + w + GATPOLY_EXT⟩⟩,
        ⟨L_CONT, ⟨s_cx, s_cy, s_cx + CONT_SIZE, s_cy + CONT_SIZE⟩⟩,
        ⟨L_METAL1, ⟨s_cx - CONT_ENC_M1, s_cy - CONT_ENC_M1,
                    s_cx + CONT_SIZE + CONT_ENC_M1, s_cy + CONT_SIZE + CONT_ENC_M1⟩⟩,
        ⟨L_CONT, ⟨d_cx, s_cy, d_cx + CONT_SIZE, s_cy + CONT_SIZE⟩⟩,
        ⟨L_METAL1, ⟨d_cx - CONT_ENC_M1, s_cy - CONT_ENC_M1,
                    d_cx + CONT_SIZE + CONT_ENC_M1, s_cy + CONT_SIZE + CONT_ENC_M1⟩⟩ ],
    gate := (gp_x1 + l / 2, y - GATPOLY_EXT),
    source := (x + sd_ext / 2, y + w / 2),
    drain := (gp_x1 + l + sd_ext / 2, y + w / 2),
    width := act_len }

/-- `draw_via1` from `gen_r2r_dac.py`: Via1 cut with M1 and M2 pads. -/
def draw_via1 (x y : ℚ) : List Emit :=
  let hs := VIA1_SIZE / 2
  let e1 := VIA1_ENC_M1 + hs
  let e2 := VIA1_ENC_M2 + hs
  [ ⟨L_VIA1, ⟨x - hs, y - hs, x + hs, y + hs⟩⟩,
    ⟨L_METAL1, ⟨x - e1, y - e1, x + e1, y + e1⟩⟩,
    ⟨L_METAL2, ⟨x - e2, y - e2, x + e2, y + e2⟩⟩ ]

def wire_w : ℚ := M1_WIDTH
def r_total : ℚ := PAD_W + SAL_SPACE_CONT + R_LENGTH + SAL_SPACE_CONT + PAD_W
def r2_total_h : ℚ := PAD_W + SAL_SPACE_CONT + R2_LENGTH + SAL_SPACE_CONT + PAD_W
def gap : ℚ := 0.3
def chain_width : ℚ := (NBITS : ℚ) * r_total + ((NBITS : ℚ) - 1) * gap
def x_start : ℚ := (MACRO_W - chain_width) / 2
def series_y : ℚ := 50

/-- `x_cursor` at the start of loop iteration `i` of `build_r2r_dac` (the
cursor starts at `x_start` and advances by `r_total + gap` per bit). -/
def xc (i : ℕ) : ℚ := x_start + (i : ℚ) * (r_total + gap)

/-- Body of the per-bit loop of `build_r2r_dac` (iteration `i`, processing
input bit `bit = NBITS - 1 - i`): series R, 2R shunt, junction wire, switch,
drain wire, gate via, Metal2 input route and jog. -/
def bitEmits (i bit : ℕ) : List Emit :=
  let series := draw_resistor_h (xc i) series_y R_LENGTH
  let jx := series.c2.1
  let jy := series.c2.2
  let r2_y := jy - r2_total_h - 0.5
  let r2_x := jx - R_WIDTH / 2
  let shunt := draw_resistor_v r2_x r2_y R2_LENGTH
  let sd_ext := CONT_SIZE + 2 * CONT_ENC_ACTIV
  let sw := draw_nmos (jx - (sd_ext + NMOS_L + sd_ext / 2)) (r2_y - 4.5)
  let gv_x := sw.gate.1
  let gv_y := sw.gate.2 - 0.5
  let pin_y : ℚ := 4 + (bit : ℚ) * 6
  series.emits ++ shunt.emits ++
  [⟨L_METAL1, ⟨jx - wire_w / 2, shunt.c2.2, jx + wire_w / 2, jy⟩⟩] ++
  sw.emits ++
  [⟨L_METAL1, ⟨shunt.c1.1 - wire_w / 2, sw.drain.2, shunt.c1.1 + wire_w / 2, shunt.c1.2⟩⟩] ++
  draw_via1 gv_x gv_y ++
  [⟨L_METAL2, ⟨0, pin_y - M2_WIDTH, gv_x + 0.2, pin_y + M2_WIDTH⟩⟩,
   ⟨L_METAL2, ⟨gv_x - M2_WIDTH, min pin_y gv_y - 0.1, gv_x + M2_WIDTH, max pin_y gv_y + 0.1⟩⟩]

/-- All geometry of the per-bit loop, bits processed MSB-first as in the
source (`for i, bit in enumerate(range(NBITS - 1, -1, -1))`). -/
def chainEmits : List Emit :=
  emitConcat (fun p => bitEmits p.1 p.2) ((List.range NBITS).map (fun i => (i, NBITS - 1 - i)))

/-- The rightmost series-chain junction (updated every iteration, so it is the
right contact of the last series resistor). -/
def vout_contact : ℚ × ℚ := (draw_resistor_h (xc (NBITS - 1)) series_y R_LENGTH).c2

/-- X coordinates at which `build_r2r_dac` places substrate taps. -/
def tap_xs : List ℚ := [3, 10, 17, 24, 31, 38]

def tapEmits : List Emit := emitConcat (fun xt => draw_ptap xt 36) tap_xs

def vout_pin_y : ℚ := 30

def voutEmits : List Emit :=
  draw_via1 vout_contact.1 vout_contact.2 ++
  [⟨L_METAL2, ⟨vout_contact.1 - 0.1, vout_pin_y - 0.5, MACRO_W, vout_pin_y + 0.5⟩⟩,
   ⟨L_METAL2, ⟨vout_contact.1 - M2_WIDTH, min vout_contact.2 vout_pin_y,
               vout_contact.1 + M2_WIDTH, max vout_contact.2 vout_pin_y⟩⟩]

def railEmits : List Emit :=
  [⟨L_METAL3, ⟨0, MACRO_H - 2, MACRO_W, MACRO_H⟩⟩,
   ⟨L_METAL3, ⟨0, 0, MACRO_W, 2⟩⟩]

def pin_calls : List PinCall :=
  (List.range NBITS).map (fun bit =>
    ⟨L_METAL2_PIN, L_METAL2_LBL,
     ⟨0, (4 + (bit : ℚ) * 6) - 0.5, 0.5, (4 + (bit : ℚ) * 6) + 0.5⟩,
     "d[" ++ toString bit ++ "]"⟩)
  ++ [⟨L_METAL2_PIN, L_METAL2_LBL,
      ⟨MACRO_W - 0.5, vout_pin_y - 0.5, MACRO_W, vout_pin_y + 0.5⟩, "vout"⟩,
      ⟨L_METAL3_PIN, L_METAL3_LBL, ⟨0, MACRO_H - 2, MACRO_W, MACRO_H⟩, "vdd"⟩,
      ⟨L_METAL3_PIN, L_METAL3_LBL, ⟨0, 0, MACRO_W, 2⟩, "vss"⟩]

/-- `build_r2r_dac`: the full macro driver of `gen_r2r_dac.py`. -/
def build_r2r_dac : CellQ :=
  { cellName := "r2r_dac_8bit"
  , emits := chainEmits ++ tapEmits ++ voutEmits ++ railEmits ++
      pin_calls.map pinCallEmit ++ [⟨L_PRBND, ⟨0, 0, MACRO_W, MACRO_H⟩⟩]
  , labels := pin_calls.map pinCallLabel }

end R2R

-- ===========================================================================
-- gen_bias_dac.py : dual-channel 4-bit R-2R bias DAC
-- ===========================================================================

namespace BiasDac

def RHIGH_SHEET_R : ℚ := 1300
def R_TARGET : ℚ := 2000
def R_WIDTH : ℚ := 2
def R_LENGTH : ℚ := R_TARGET / RHIGH_SHEET_R * R_WIDTH
def R2_LENGTH : ℚ := R_LENGTH * 2

def NMOS_W : ℚ := 2
def NMOS_L : ℚ := 0.13

def NBITS : ℕ := 4
def MACRO_W : ℚ := 35
def MACRO_H : ℚ := 40

def PAD_W : ℚ := CONT_SIZE + 2 * CONT_ENC_GATPOLY
def R_TOTAL : ℚ := PAD_W + SAL_SPACE_CONT + R_LENGTH + SAL_SPACE_CONT + PAD_W
def R2_TOTAL : ℚ := PAD_W + SAL_SPACE_CONT + R2_LENGTH + SAL_SPACE_CONT + PAD_W

/-- `draw_resistor_h` of `gen_bias_dac.py` (copied verbatim in the source from
`gen_r2r_dac.py`). -/
def draw_resistor_h (x y length : ℚ) (width : ℚ := R_WIDTH) : R2R.ResistorOut :=
  let pad := PAD_W
  let total_l := pad + SAL_SPACE_CONT + length + SAL_SPACE_CONT + pad
  let enc : ℚ := 0.1
  let sal_x1 := x + pad + SAL_SPACE_CONT - SAL_ENC_GATPOLY
  let sal_x2 := x + pad + SAL_SPACE_CONT + length + SAL_ENC_GATPOLY
  let cx_l := x + pad / 2 - CONT_SIZE / 2
  let cy := y + width / 2 - CONT_SIZE / 2
  let cx_r := x + total_l - pad / 2 - CONT_SIZE / 2
  { emits :=
      [ ⟨L_GATPOLY, ⟨x, y, x + total_l, y + width⟩⟩,
        ⟨L_PSD, ⟨x - enc, y - enc, x + total_l + enc, y + width + enc⟩⟩,
        ⟨L_SALBLOCK, ⟨sal_x1, y - SAL_ENC_GATPOLY, sal_x2, y + width + SAL_ENC_GATPOLY⟩⟩,
        ⟨L_CONT, ⟨cx_l, cy, cx_l + CONT_SIZE, cy + CONT_SIZE⟩⟩,
        ⟨L_METAL1, ⟨cx_l - CONT_ENC_M1, cy - CONT_ENC_M1,
                    cx_l + CONT_SIZE + CONT_ENC_M1, cy + CONT_SIZE + CONT_ENC_M1⟩⟩,
        ⟨L_CONT, ⟨cx_r, cy, cx_r + CONT_SIZE, cy + CONT_SIZE⟩⟩,
        ⟨L_METAL1, ⟨cx_r - CONT_ENC_M1, cy - CONT_ENC_M1,
                    cx_r + CONT_SIZE + CONT_ENC_M1, cy + CONT_SIZE + CONT_ENC_M1⟩⟩ ],
    c1 := (x + pad / 2, y + width / 2),
    c2 := (x + total_l - pad / 2, y + width / 2),
    total := total_l }

/-- `draw_resistor_v` of `gen_bias_dac.py`. -/
def draw_resistor_v (x y length : ℚ) (width : ℚ := R_WIDTH) : R2R.ResistorOut :=
  let pad := PAD_W
  let total_h := pad + SAL_SPACE_CONT + length + SAL_SPACE_CONT + pad
  let enc : ℚ := 0.1
  let sal_y1 := y + pad + SAL_SPACE_CONT - SAL_ENC_GATPOLY
  let sal_y2 := y + pad + SAL_SPACE_CONT + length + SAL_ENC_GATPOLY
  let cx := x + width / 2 - CONT_SIZE / 2
  let cy_b := y + pad / 2 - CONT_SIZE / 2
  let cy_t := y + total_h - pad / 2 - CONT_SIZE / 2
  { emits :=
      [ ⟨L_GATPOLY, ⟨x, y, x + width, y + total_h⟩⟩,
        ⟨L_PSD, ⟨x - enc, y - enc, x + width + enc, y + total_h + enc⟩⟩,
        ⟨L_SALBLOCK, ⟨x - SAL_ENC_GATPOLY, sal_y1, x + width + SAL_ENC_GATPOLY, sal_y2⟩⟩,
        ⟨L_CONT, ⟨cx, cy_b, cx + CONT_SIZE, cy_b + CONT_SIZE⟩⟩,
        ⟨L_METAL1, ⟨cx - CONT_ENC_M1, cy_b - CONT_ENC_M1,
                    cx + CONT_SIZE + CONT_ENC_M1, cy_b + CONT_SIZE + CONT_ENC_M1⟩⟩,
        ⟨L_CONT, ⟨cx, cy_t, cx + CONT_SIZE, cy_t + CONT_SIZE⟩⟩,
        ⟨L_METAL1, ⟨cx - CONT_ENC_M1, cy_t - CONT_ENC_M1,
                    cx + CONT_SIZE + CONT_ENC_M1, cy_t + CONT_SIZE + CONT_ENC_M1⟩⟩ ],
    c1 := (x + width / 2, y + pad / 2),
    c2 := (x + width / 2, y + total_h - pad / 2),
    total := total_h }

/-- `draw_nmos` of `gen_bias_dac.py`. -/
def draw_nmos (x y : ℚ) (w : ℚ := NMOS_W) (l : ℚ := NMOS_L) : R2R.NmosOut :=
  let sd_ext := CONT_SIZE + 2 * CONT_ENC_ACTIV
  let act_len := sd_ext + l + sd_ext
  let gp_x1 := x + sd_ext
  let s_cx := x + sd_ext / 2 - CONT_SIZE / 2
  let s_cy := y + w / 2 - CONT_SIZE / 2
  let d_cx := gp_x1 + l + (sd_ext - CONT_SIZE) / 2
  { emits :=
      [ ⟨L_ACTIV, ⟨x, y, x + act_len, y + w⟩⟩,
        ⟨L_NSD, ⟨x - 0.1, y - 0.1, x + act_len + 0.1, y + w + 0.1⟩⟩,
        ⟨L_GATPOLY, ⟨gp_x1, y - GATPOLY_EXT, gp_x1 + l, y + w + GATPOLY_EXT⟩⟩,
        ⟨L_CONT, ⟨s_cx, s_cy, s_cx + CONT_SIZE, s_cy + CONT_SIZE⟩⟩,
        ⟨L_METAL1, ⟨s_cx - CONT_ENC_M1, s_cy - CONT_ENC_M1,
                    s_cx + CONT_SIZE + CONT_ENC_M1, s_cy + CONT_SIZE + CONT_ENC_M1⟩⟩,
        ⟨L_CONT, ⟨d_cx, s_cy, d_cx + CONT_SIZE, s_cy + CONT_SIZE⟩⟩,
        ⟨L_METAL1, ⟨d_cx - CONT_ENC_M1, s_cy - CONT_ENC_M1,
                    d_cx + CONT_SIZE + CONT_ENC_M1, s_cy + CONT_SIZE + CONT_ENC_M1⟩⟩ ],
    gate := (gp_x1 + l / 2, y - GATPOLY_EXT),
    source := (x + sd_ext / 2, y + w / 2),
    drain := (gp_x1 + l + sd_ext / 2, y + w / 2),
    width := act_len }

/-- `draw_via1` of `gen_bias_dac.py`. -/
def draw_via1 (x y : ℚ) : List Emit :=
  let hs := VIA1_SIZE / 2
  let e1 := VIA1_ENC_M1 + hs
  let e2 := VIA1_ENC_M2 + hs
  [ ⟨L_VIA1, ⟨x - hs, y - hs, x + hs, y + hs⟩⟩,
    ⟨L_METAL1, ⟨x - e1, y - e1, x + e1, y + e1⟩⟩,
    ⟨L_METAL2, ⟨x - e2, y - e2, x + e2, y + e2⟩⟩ ]

/-- `draw_via2` of `gen_bias_dac.py`. -/
def draw_via2 (x y : ℚ) : List Emit :=
  let hs := VIA2_SIZE / 2
  let e2 := VIA2_ENC_M2 + hs
  let e3 := VIA2_ENC_M3 + hs
  [ ⟨L_VIA2, ⟨x - hs, y - hs, x + hs, y + hs⟩⟩,
    ⟨L_METAL2, ⟨x - e2, y - e2, x + e2, y + e2⟩⟩,
    ⟨L_METAL3, ⟨x - e3, y - e3, x + e3, y + e3⟩⟩ ]

def wire_w : ℚ := M1_WIDTH
def r_total : ℚ := PAD_W + SAL_SPACE_CONT + R_LENGTH + SAL_SPACE_CONT + PAD_W
def r2_total_h : ℚ := PAD_W + SAL_SPACE_CONT + R2_LENGTH + SAL_SPACE_CONT + PAD_W
def gap : ℚ := 0.3

/-- Return value of `build_channel`, plus the rectangles it inserted. -/
structure ChannelOut where
  emits : List Emit
  vout : ℚ × ℚ
  pins : List (String × Rect)

/-- `x_cursor` at the start of loop iteration `i` of `build_channel`. -/
def chanXc (x_start : ℚ) (i : ℕ) : ℚ := x_start + (i : ℚ) * (r_total + gap)

/-- Body of the per-bit loop of `build_channel` (iteration `i`, bit
`bit = nbits - 1 - i`). -/
def chanBitEmits (x_start series_y pin_base_y : ℚ) (i bit : ℕ) : List Emit :=
  let series := draw_resistor_h (chanXc x_start i) series_y R_LENGTH
  let jx := series.c2.1
  let jy := series.c2.2
  let r2_y := jy - r2_total_h - 0.5
  let r2_x := jx - R_WIDTH / 2
  let shunt := draw_resistor_v r2_x r2_y R2_LENGTH
  let sd_ext := CONT_SIZE + 2 * CONT_ENC_ACTIV
  let sw := draw_nmos (jx - (sd_ext + NMOS_L + sd_ext / 2)) (r2_y - 4.5)
  let gv_x := sw.gate.1
  let gv_y := sw.gate.2 - 0.5
  let pin_y : ℚ := pin_base_y + (bit : ℚ) * 3.5
  series.emits ++ shunt.emits ++
  [⟨L_METAL1, ⟨jx - wire_w / 2, shunt.c2.2, jx + wire_w / 2, jy⟩⟩] ++
  sw.emits ++
  [⟨L_METAL1, ⟨shunt.c1.1 - wire_w / 2, sw.drain.2, shunt.c1.1 + wire_w / 2, shunt.c1.2⟩⟩] ++
  draw_via1 gv_x gv_y ++
  [⟨L_METAL2, ⟨0, pin_y - M2_WIDTH, gv_x + 0.2, pin_y + M2_WIDTH⟩⟩,
   ⟨L_METAL2, ⟨gv_x - M2_WIDTH, min pin_y gv_y - 0.1, gv_x + M2_WIDTH, max pin_y gv_y + 0.1⟩⟩]

/-- `build_channel` from `gen_bias_dac.py`: one 4-bit R-2R ladder channel. -/
def build_channel (x_start series_y pin_base_y : ℚ) (pname : String)
    (nbits : ℕ := 4) : ChannelOut :=
  let pairs := (List.range nbits).map (fun i => (i, nbits - 1 - i))
  { emits := emitConcat (fun p => chanBitEmits x_start series_y pin_base_y p.1 p.2) pairs
  , vout := (draw_resistor_h (chanXc x_start (nbits - 1)) series_y R_LENGTH).c2
  , pins := pairs.map (fun p =>
      (pname ++ "[" ++ toString p.2 ++ "]",
       ⟨0, (pin_base_y + (p.2 : ℚ) * 3.5) - 0.5, 0.5, (pin_base_y + (p.2 : ℚ) * 3.5) + 0.5⟩)) }

def fcChan : ChannelOut := build_channel 3 30 24 "d_fc" NBITS
def qChan : ChannelOut := build_channel 3 12 4 "d_q" NBITS

def bias_tap_xs : List ℚ := [5, 12, 19, 26]

def vout_fc_pin_y : ℚ := 30
def vout_q_pin_y : ℚ := 12

def voutFcEmits : List Emit :=
  draw_via1 fcChan.vout.1 fcChan.vout.2 ++
  [⟨L_METAL2, ⟨fcChan.vout.1 - 0.1, vout_fc_pin_y - 0.5, MACRO_W, vout_fc_pin_y + 0.5⟩⟩,
   ⟨L_METAL2, ⟨fcChan.vout.1 - M2_WIDTH, min fcChan.vout.2 vout_fc_pin_y,
               fcChan.vout.1 + M2_WIDTH, max fcChan.vout.2 vout_fc_pin_y⟩⟩]

def voutQEmits : List Emit :=
  draw_via1 qChan.vout.1 qChan.vout.2 ++
  [⟨L_METAL2, ⟨qChan.vout.1 - 0.1, vout_q_pin_y - 0.5, MACRO_W, vout_q_pin_y + 0.5⟩⟩,
   ⟨L_METAL2, ⟨qChan.vout.1 - M2_WIDTH, min qChan.vout.2 vout_q_pin_y,
               qChan.vout.1 + M2_WIDTH, max qChan.vout.2 vout_q_pin_y⟩⟩]

def pin_calls : List PinCall :=
  fcChan.pins.map (fun p => ⟨L_METAL2_PIN, L_METAL2_LBL, p.2, p.1⟩) ++
  qChan.pins.map (fun p => ⟨L_METAL2_PIN, L_METAL2_LBL, p.2, p.1⟩) ++
  [⟨L_METAL2_PIN, L_METAL2_LBL,
    ⟨MACRO_W - 0.5, vout_fc_pin_y - 0.5, MACRO_W, vout_fc_pin_y + 0.5⟩, "vout_fc"⟩,
   ⟨L_METAL2_PIN, L_METAL2_LBL,
    ⟨MACRO_W - 0.5, vout_q_pin_y - 0.5, MACRO_W, vout_q_pin_y + 0.5⟩, "vout_q"⟩,
   ⟨L_METAL3_PIN, L_METAL3_LBL, ⟨0, MACRO_H - 2, MACRO_W, MACRO_H⟩, "vdd"⟩,
   ⟨L_METAL3_PIN, L_METAL3_LBL, ⟨0, 0, MACRO_W, 2⟩, "vss"⟩]

/-- `build_bias_dac`: the full macro driver of `gen_bias_dac.py` (rails are
inserted before the two channels in this driver). -/
def build_bias_dac : CellQ :=
  { cellName := "bias_dac_2ch"
  , emits :=
      [⟨L_METAL3, ⟨0, MACRO_H - 2, MACRO_W, MACRO_H⟩⟩,
       ⟨L_METAL3, ⟨0, 0, MACRO_W, 2⟩⟩] ++
      fcChan.emits ++ qChan.emits ++
      emitConcat (fun xt => draw_ptap xt 16) bias_tap_xs ++
      emitConcat (fun xt => draw_ptap xt 2.5) bias_tap_xs ++
      voutFcEmits ++ voutQEmits ++
      pin_calls.map pinCallEmit ++ [⟨L_PRBND, ⟨0, 0, MACRO_W, MACRO_H⟩⟩]
  , labels := pin_calls.map pinCallLabel }

end BiasDac

-- ===========================================================================
-- gen_sar_adc.py : 8-bit SAR ADC
-- ===========================================================================

namespace SarAdc

def NBITS : ℕ := 8
def C_UNIT : ℚ := 2
def C_UNIT_AREA : ℚ := C_UNIT / MIM_CAP_DENSITY

def MACRO_W : ℚ := 42
def MACRO_H : ℚ := 45

def COMP_W : ℚ := 15
def COMP_H : ℚ := 20

def SAR_W : ℚ := 15
def SAR_H : ℚ := 18

/-- Return value of `draw_nmos_transistor` / `draw_pmos_transistor` (the
`{'gate','source','drain'}` dict), plus the rectangles inserted. -/
structure PinsOut where
  emits : List Emit
  gate : ℚ × ℚ
  source : ℚ × ℚ
  drain : ℚ × ℚ

/-- `draw_nmos_transistor` from `gen_sar_adc.py`; note its gate pin sits on the
top edge of the poly (`y + w + GATPOLY_EXT`), unlike `draw_nmos` of
`gen_r2r_dac.py`. -/
def draw_nmos_transistor (x y w l : ℚ) : PinsOut :=
  let sd_ext := CONT_SIZE + 2 * CONT_ENC_ACTIV
  let act_len := sd_ext + l + sd_ext
  let gp_x1 := x + sd_ext
  let s_cx := x + sd_ext / 2 - CONT_SIZE / 2
  let s_cy := y + w / 2 - CONT_SIZE / 2
  let d_cx := gp_x1 + l + (sd_ext - CONT_SIZE) / 2
  { emits :=
      [ ⟨L_ACTIV, ⟨x, y, x + act_len, y + w⟩⟩,
        ⟨L_NSD, ⟨x - 0.1, y - 0.1, x + act_len + 0.1, y + w + 0.1⟩⟩,
        ⟨L_GATPOLY, ⟨gp_x1, y - GATPOLY_EXT, gp_x1 + l, y + w + GATPOLY_EXT⟩⟩,
        ⟨L_CONT, ⟨s_cx, s_cy, s_cx + CONT_SIZE, s_cy + CONT_SIZE⟩⟩,
        ⟨L_METAL1, ⟨s_cx - CONT_ENC_M1, s_cy - CONT_ENC_M1,
                    s_cx + CONT_SIZE + CONT_ENC_M1, s_cy + CONT_SIZE + CONT_ENC_M1⟩⟩,
        ⟨L_CONT, ⟨d_cx, s_cy, d_cx + CONT_SIZE, s_cy + CONT_SIZE⟩⟩,
        ⟨L_METAL1, ⟨d_cx - CONT_ENC_M1, s_cy - CONT_ENC_M1,
                    d_cx + CONT_SIZE + CONT_ENC_M1, s_cy + CONT_SIZE + CONT_ENC_M1⟩⟩ ],
    gate := (gp_x1 + l / 2, y + w + GATPOLY_EXT),
    source := (x + sd_ext / 2, y + w / 2),
    drain := (gp_x1 + l + sd_ext / 2, y + w / 2) }

/-- `draw_pmos_transistor` from `gen_sar_adc.py`. -/
def draw_pmos_transistor (x y w l : ℚ) (draw_nwell : Bool := true) : PinsOut :=
  let sd_ext := CONT_SIZE + 2 * CONT_ENC_ACTIV
  let act_len := sd_ext + l + sd_ext
  let gp_x1 := x + sd_ext
  let s_cx := x + sd_ext / 2 - CONT_SIZE / 2
  let s_cy := y + w / 2 - CONT_SIZE / 2
  let d_cx := gp_x1 + l + (sd_ext - CONT_SIZE) / 2
  let nw_enc := NWELL_ENC_ACTIV
  { emits :=
      (if draw_nwell then
        [⟨L_NWELL, ⟨x - nw_enc, y - nw_enc, x + act_len + nw_enc, y + w + nw_enc⟩⟩]
       else []) ++
      [ ⟨L_ACTIV, ⟨x, y, x + act_len, y + w⟩⟩,
        ⟨L_PSD, ⟨x - 0.1, y - 0.1, x + act_len + 0.1, y + w + 0.1⟩⟩,
        ⟨L_GATPOLY, ⟨gp_x1, y - GATPOLY_EXT, gp_x1 + l, y + w + GATPOLY_EXT⟩⟩,
        ⟨L_CONT, ⟨s_cx, s_cy, s_cx + CONT_SIZE, s_cy + CONT_SIZE⟩⟩,
        ⟨L_METAL1, ⟨s_cx - CONT_ENC_M1, s_cy - CONT_ENC_M1,
                    s_cx + CONT_SIZE + CONT_ENC_M1, s_cy + CONT_SIZE + CONT_ENC_M1⟩⟩,
        ⟨L_CONT, ⟨d_cx, s_cy, d_cx + CONT_SIZE, s_cy + CONT_SIZE⟩⟩,
        ⟨L_METAL1, ⟨d_cx - CONT_ENC_M1, s_cy - CONT_ENC_M1,
                    d_cx + CONT_SIZE + CONT_ENC_M1, s_cy + CONT_SIZE + CONT_ENC_M1⟩⟩ ],
    gate := (gp_x1 + l / 2, y - GATPOLY_EXT),
    source := (x + sd_ext / 2, y + w / 2),
    drain := (gp_x1 + l + sd_ext / 2, y + w / 2) }

/-- Return value of `draw_strongarm_comparator` plus its rectangles. -/
structure CompOut where
  emits : List Emit
  outp : ℚ × ℚ
  outn : ℚ × ℚ
  clk : ℚ × ℚ
  bbox : Rect

/-- `draw_strongarm_comparator` from `gen_sar_adc.py`. -/
def draw_strongarm_comparator (x y : ℚ) : CompOut :=
  let inp := draw_nmos_transistor x y 2 0.50
  let inn := draw_nmos_transistor (x + 5) y 2 0.50
  let tail := draw_nmos_transistor (x + 2) (y - 4) 4 0.13
  let p1 := draw_pmos_transistor x (y + 5) 2 0.13
  let p2 := draw_pmos_transistor (x + 5) (y + 5) 2 0.13
  let n1 := draw_nmos_transistor x (y + 10) 1 0.13
  let n2 := draw_nmos_transistor (x + 5) (y + 10) 1 0.13
  let pr1 := draw_pmos_transistor (x + 1) (y + 13) 1 0.13
  let pr2 := draw_pmos_transistor (x + 6) (y + 13) 1 0.13
  { emits := inp.emits ++ inn.emits ++ tail.emits ++ p1.emits ++ p2.emits ++
      n1.emits ++ n2.emits ++ pr1.emits ++ pr2.emits
  , outp := n1.drain
  , outn := n2.drain
  , clk := tail.gate
  , bbox := ⟨x - 0.5, y - 5, x + COMP_W, y + COMP_H⟩ }

def sar_row_h : ℚ := 2.5

/-- One standard-cell row of `draw_sar_logic_block`. -/
def sarRowEmits (x y w : ℚ) (ncols : ℕ) (r : ℕ) : List Emit :=
  let ry := y + (r : ℚ) * sar_row_h
  let nw_enc := NWELL_ENC_ACTIV
  emitConcat (fun c =>
    let tx := x + (c : ℚ) * 1.5
    if r % 2 = 0 then (draw_nmos_transistor tx (ry + 0.2) 0.8 0.13).emits
    else (draw_pmos_transistor tx (ry + 0.2) 0.8 0.13 false).emits)
    (List.range ncols) ++
  (if r % 2 = 1 then
    [⟨L_NWELL, ⟨x - nw_enc, ry + 0.2 - nw_enc,
                x + ((ncols : ℚ) - 1) * 1.5 + 0.77 + nw_enc, ry + 0.2 + 0.8 + nw_enc⟩⟩]
   else []) ++
  [⟨L_METAL1, ⟨x, ry, x + w, ry + M1_WIDTH⟩⟩,
   ⟨L_METAL1, ⟨x, ry + sar_row_h - M1_WIDTH, x + w, ry + sar_row_h⟩⟩]

/-- `draw_sar_logic_block` from `gen_sar_adc.py`; `int()` on a positive float
is a floor. -/
def draw_sar_logic_block (x y w h : ℚ) : List Emit :=
  let nrows : ℕ := (⌊h / sar_row_h⌋).toNat
  let ncols : ℕ := (⌊w / 1.5⌋).toNat
  emitConcat (sarRowEmits x y w ncols) (List.range nrows) ++
  [⟨L_METAL2, ⟨x, y, x + M2_WIDTH * 2, y + h⟩⟩,
   ⟨L_METAL2, ⟨x + w - M2_WIDTH * 2, y, x + w, y + h⟩⟩]

def cap_region_x : ℚ := 2
def cap_region_y : ℚ := 4

/-- One iteration of the merged-cap loop of `build_sar_adc`.  The host
language's floating square root (`area ** 0.5`) is an external numeric
operation; it is passed in as `fsqrt`.  State: (cursor x, cursor y,
accumulated rectangles). -/
def capLoopStep (fsqrt : ℚ → ℚ) (st : ℚ × ℚ × List Emit) (bit : ℕ) :
    ℚ × ℚ × List Emit :=
  let nunits : ℕ := if bit = 0 then 1 else 2 ^ (bit - 1)
  let area := (nunits : ℚ) * C_UNIT_AREA
  let side := max MIM_MIN_SIZE (fsqrt area)
  let w_cap := max MIM_MIN_SIZE side
  let h_cap := max MIM_MIN_SIZE (area / w_cap)
  let cx0 := st.1
  let cy0 := st.2.1
  let acc := st.2.2
  let cx := if cy0 + h_cap + MIM_SPACE + 2 * MIM_ENC_M5 > MACRO_H - 6 then cx0 + 12 else cx0
  let cy := if cy0 + h_cap + MIM_SPACE + 2 * MIM_ENC_M5 > MACRO_H - 6 then cap_region_y else cy0
  let tm1_enc_w := if w_cap < 1.44 then max 0.1 ((1.64 - w_cap) / 2 + 0.01) else (0.1 : ℚ)
  let tm1_enc_h := if h_cap < 1.44 then max 0.1 ((1.64 - h_cap) / 2 + 0.01) else (0.1 : ℚ)
  (cx, cy + h_cap + MIM_SPACE + 2 * MIM_ENC_M5 + 1,
   acc ++
   [⟨L_CMIM, ⟨cx, cy, cx + w_cap, cy + h_cap⟩⟩,
    ⟨L_METAL5, ⟨cx - MIM_ENC_M5, cy - MIM_ENC_M5,
                cx + w_cap + MIM_ENC_M5, cy + h_cap + MIM_ENC_M5⟩⟩,
    ⟨L_TOPMETAL1, ⟨cx - tm1_enc_w, cy - tm1_enc_h,
                   cx + w_cap + tm1_enc_w, cy + h_cap + tm1_enc_h⟩⟩])

/-- All rectangles of the merged-cap loop (`for bit in range(NBITS + 1)`). -/
def capEmits (fsqrt : ℚ → ℚ) : List Emit :=
  ((List.range (NBITS + 1)).foldl (capLoopStep fsqrt) (cap_region_x, cap_region_y, [])).2.2

def sar_comp_tap_xs : List ℚ := [26, 30, 34, 38]
def sar_logic_tap_xs : List ℚ := [24.5, 31, 36.5, 41.5]
def sar_logic_tap_ys : List ℚ := [8, 14, 20]
def sar_cap_tap_xs : List ℚ := [2, 10, 18]

/-- All substrate-tap placements of `build_sar_adc`, in source order. -/
def sarTapEmits : List Emit :=
  draw_ptap 2 19 ++ draw_ptap 6 19 ++
  emitConcat (fun xt => draw_ptap xt 23 ++ draw_ptap xt 33) sar_comp_tap_xs ++
  emitConcat (fun xt => draw_ptap xt 2.5 ++ draw_ptap xt 22.5) sar_logic_tap_xs ++
  emitConcat (fun yt => draw_ptap 24.5 yt ++ draw_ptap 41.5 yt) sar_logic_tap_ys ++
  emitConcat (fun xt => draw_ptap xt 2.5) sar_cap_tap_xs

def busEmits : List Emit :=
  (List.range NBITS).map (fun bit =>
    let bus_y : ℚ := 24 + (bit : ℚ) * 1.5
    ⟨L_METAL2, ⟨cap_region_x, bus_y - M2_WIDTH / 2, 27, bus_y + M2_WIDTH / 2⟩⟩)

def pin_calls : List PinCall :=
  [⟨L_METAL2_PIN, L_METAL2_LBL, ⟨0, 5 - 0.5, 0.5, 5 + 0.5⟩, "clk"⟩,
   ⟨L_METAL2_PIN, L_METAL2_LBL, ⟨0, 9 - 0.5, 0.5, 9 + 0.5⟩, "rst_n"⟩,
   ⟨L_METAL2_PIN, L_METAL2_LBL, ⟨0, 13 - 0.5, 0.5, 13 + 0.5⟩, "start"⟩,
   ⟨L_METAL2_PIN, L_METAL2_LBL, ⟨0, 22 - 0.5, 0.5, 22 + 0.5⟩, "vin"⟩,
   ⟨L_METAL2_PIN, L_METAL2_LBL, ⟨MACRO_W - 0.5, 5 - 0.5, MACRO_W, 5 + 0.5⟩, "eoc"⟩] ++
  (List.range NBITS).map (fun bit =>
    ⟨L_METAL2_PIN, L_METAL2_LBL,
     ⟨MACRO_W - 0.5, (9 + (bit : ℚ) * 4.5) - 0.5, MACRO_W, (9 + (bit : ℚ) * 4.5) + 0.5⟩,
     "dout[" ++ toString bit ++ "]"⟩) ++
  [⟨L_METAL3_PIN, L_METAL3_LBL, ⟨0, MACRO_H - 2, MACRO_W, MACRO_H⟩, "vdd"⟩,
   ⟨L_METAL3_PIN, L_METAL3_LBL, ⟨0, 0, MACRO_W, 2⟩, "vss"⟩]

/-- `build_sar_adc`: the full macro driver of `gen_sar_adc.py`, parameterised
by the host float square root used in the merged-cap loop. -/
def build_sar_adc (fsqrt : ℚ → ℚ) : CellQ :=
  { cellName := "sar_adc_8bit"
  , emits :=
      capEmits fsqrt ++
      (draw_nmos_transistor 2 22 3 0.13).emits ++
      (draw_strongarm_comparator 27 25).emits ++
      draw_sar_logic_block 27 4 SAR_W SAR_H ++
      sarTapEmits ++
      busEmits ++
      [⟨L_METAL3, ⟨0, MACRO_H - 2, MACRO_W, MACRO_H⟩⟩,
       ⟨L_METAL3, ⟨0, 0, MACRO_W, 2⟩⟩] ++
      pin_calls.map pinCallEmit ++ [⟨L_PRBND, ⟨0, 0, MACRO_W, MACRO_H⟩⟩]
  , labels := pin_calls.map pinCallLabel }

end SarAdc

-- ===========================================================================
-- gen_svf.py : 2nd-order gm-C state variable filter
-- ===========================================================================

namespace Svf

def MACRO_W : ℚ := 70
def MACRO_H : ℚ := 85

def OTA_DP_W : ℚ := 4
def OTA_DP_L : ℚ := 0.50
def OTA_LD_W : ℚ := 2
def OTA_LD_L : ℚ := 0.50
def OTA_TAIL_W : ℚ := 2
def OTA_TAIL_L : ℚ := 0.50

def C_INT : ℚ := 1
def C_INT_AREA : ℚ := C_INT * 1000 / MIM_CAP_DENSITY
def C_INT_SIDE : ℚ := 25.8

def MUX_W : ℚ := 2
def MUX_L : ℚ := 0.13

def BIAS_W : ℚ := 2
def BIAS_L : ℚ := 1

/-- `draw_nmos` from `gen_svf.py` (gate pin on the top poly edge). -/
def draw_nmos (x y w l : ℚ) : R2R.NmosOut :=
  let sd_ext := CONT_SIZE + 2 * CONT_ENC_ACTIV
  let act_len := sd_ext + l + sd_ext
  let gp_x1 := x + sd_ext
  let s_cx := x + sd_ext / 2 - CONT_SIZE / 2
  let s_cy := y + w / 2 - CONT_SIZE / 2
  let d_cx := gp_x1 + l + (sd_ext - CONT_SIZE) / 2
  { emits :=
      [ ⟨L_ACTIV, ⟨x, y, x + act_len, y + w⟩⟩,
        ⟨L_NSD, ⟨x - 0.1, y - 0.1, x + act_len + 0.1, y + w + 0.1⟩⟩,
        ⟨L_GATPOLY, ⟨gp_x1, y - GATPOLY_EXT, gp_x1 + l, y + w + GATPOLY_EXT⟩⟩,
        ⟨L_CONT, ⟨s_cx, s_cy, s_cx + CONT_SIZE, s_cy + CONT_SIZE⟩⟩,
        ⟨L_METAL1, ⟨s_cx - CONT_ENC_M1, s_cy - CONT_ENC_M1,
                    s_cx + CONT_SIZE + CONT_ENC_M1, s_cy + CONT_SIZE + CONT_ENC_M1⟩⟩,
        ⟨L_CONT, ⟨d_cx, s_cy, d_cx + CONT_SIZE, s_cy + CONT_SIZE⟩⟩,
        ⟨L_METAL1, ⟨d_cx - CONT_ENC_M1, s_cy - CONT_ENC_M1,
                    d_cx + CONT_SIZE + CONT_ENC_M1, s_cy + CONT_SIZE + CONT_ENC_M1⟩⟩ ],
    gate := (gp_x1 + l / 2, y + w + GATPOLY_EXT),
    source := (x + sd_ext / 2, y + w / 2),
    drain := (gp_x1 + l + sd_ext / 2, y + w / 2),
    width := act_len }

/-- `draw_pmos` from `gen_svf.py`. -/
def draw_pmos (x y w l : ℚ) (nwell : Bool := true) : R2R.NmosOut :=
  let sd_ext := CONT_SIZE + 2 * CONT_ENC_ACTIV
  let act_len := sd_ext + l + sd_ext
  let gp_x1 := x + sd_ext
  let s_cx := x + sd_ext / 2 - CONT_SIZE / 2
  let s_cy := y + w / 2 - CONT_SIZE / 2
  let d_cx := gp_x1 + l + (sd_ext - CONT_SIZE) / 2
  let nw_enc := NWELL_ENC_ACTIV
  { emits :=
      (if nwell then
        [⟨L_NWELL, ⟨x - nw_enc, y - nw_enc, x + act_len + nw_enc, y + w + nw_enc⟩⟩]
       else []) ++
      [ ⟨L_ACTIV, ⟨x, y, x + act_len, y + w⟩⟩,
        ⟨L_PSD, ⟨x - 0.1, y - 0.1, x + act_len + 0.1, y + w + 0.1⟩⟩,
        ⟨L_GATPOLY, ⟨gp_x1, y - GATPOLY_EXT, gp_x1 + l, y + w + GATPOLY_EXT⟩⟩,
        ⟨L_CONT, ⟨s_cx, s_cy, s_cx + CONT_SIZE, s_cy + CONT_SIZE⟩⟩,
        ⟨L_METAL1, ⟨s_cx - CONT_ENC_M1, s_cy - CONT_ENC_M1,
                    s_cx + CONT_SIZE + CONT_ENC_M1, s_cy + CONT_SIZE + CONT_ENC_M1⟩⟩,
        ⟨L_CONT, ⟨d_cx, s_cy, d_cx + CONT_SIZE, s_cy + CONT_SIZE⟩⟩,
        ⟨L_METAL1, ⟨d_cx - CONT_ENC_M1, s_cy - CONT_ENC_M1,
                    d_cx + CONT_SIZE + CONT_ENC_M1, s_cy + CONT_SIZE + CONT_ENC_M1⟩⟩ ],
    gate := (gp_x1 + l / 2, y - GATPOLY_EXT),
    source := (x + sd_ext / 2, y + w / 2),
    drain := (gp_x1 + l + sd_ext / 2, y + w / 2),
    width := act_len }

/-- `draw_via1` of `gen_svf.py`. -/
def draw_via1 (x y : ℚ) : List Emit :=
  let hs := VIA1_SIZE / 2
  let e1 := VIA1_ENC_M1 + hs
  let e2 := VIA1_ENC_M2 + hs
  [ ⟨L_VIA1, ⟨x - hs, y - hs, x + hs, y + hs⟩⟩,
    ⟨L_METAL1, ⟨x - e1, y - e1, x + e1, y + e1⟩⟩,
    ⟨L_METAL2, ⟨x - e2, y - e2, x + e2, y + e2⟩⟩ ]

/-- `draw_via2` of `gen_svf.py`. -/
def draw_via2 (x y : ℚ) : List Emit :=
  let hs := VIA2_SIZE / 2
  let e2 := VIA2_ENC_M2 + hs
  let e3 := VIA2_ENC_M3 + hs
  [ ⟨L_VIA2, ⟨x - hs, y - hs, x + hs, y + hs⟩⟩,
    ⟨L_METAL2, ⟨x - e2, y - e2, x + e2, y + e2⟩⟩,
    ⟨L_METAL3, ⟨x - e3, y - e3, x + e3, y + e3⟩⟩ ]

/-- Return value of `draw_mim_cap` plus its rectangles. -/
structure MimOut where
  emits : List Emit
  bot : ℚ × ℚ
  top : ℚ × ℚ

/-- `draw_mim_cap` from `gen_svf.py`. -/
def draw_mim_cap (x y w h : ℚ) : MimOut :=
  let enc := MIM_ENC_M5
  { emits :=
      [ ⟨L_CMIM, ⟨x, y, x + w, y + h⟩⟩,
        ⟨L_METAL5, ⟨x - enc, y - enc, x + w + enc, y + h + enc⟩⟩,
        ⟨L_TOPMETAL1, ⟨x - 0.1, y - 0.1, x + w + 0.1, y + h + 0.1⟩⟩ ],
    bot := (x + w / 2, y - enc),
    top := (x + w / 2, y + h + 0.1) }

/-- Return value of `draw_ota` plus its rectangles. -/
structure OtaOut where
  emits : List Emit
  inp : ℚ × ℚ
  inn : ℚ × ℚ
  out : ℚ × ℚ
  tail : ℚ × ℚ
  vdd_l : ℚ × ℚ
  vdd_r : ℚ × ℚ
  vss : ℚ × ℚ
  total_w : ℚ
  total_h : ℚ

/-- `draw_ota` from `gen_svf.py`: 5-transistor OTA with its internal Metal1
routing. -/
def draw_ota (x y : ℚ) : OtaOut :=
  let dp_gap : ℚ := 1.5
  let sd_ext_n := CONT_SIZE + 2 * CONT_ENC_ACTIV
  let dp_act_len := sd_ext_n + OTA_DP_L + sd_ext_n
  let ld_act_len := sd_ext_n + OTA_LD_L + sd_ext_n
  let tail_act_len := sd_ext_n + OTA_TAIL_L + sd_ext_n
  let ww := M1_WIDTH
  let tail_x := x + (dp_act_len * 2 + dp_gap - tail_act_len) / 2
  let m5 := draw_nmos tail_x y OTA_TAIL_W OTA_TAIL_L
  let dp_y := y + OTA_TAIL_W + 2
  let m1 := draw_nmos x dp_y OTA_DP_W OTA_DP_L
  let m2 := draw_nmos (x + dp_act_len + dp_gap) dp_y OTA_DP_W OTA_DP_L
  let ld_y := dp_y + OTA_DP_W + 2.5
  let nw_enc := NWELL_ENC_ACTIV
  let m3 := draw_pmos x ld_y OTA_LD_W OTA_LD_L false
  let m4 := draw_pmos (x + dp_act_len + dp_gap) ld_y OTA_LD_W OTA_LD_L false
  { emits :=
      m5.emits ++ m1.emits ++ m2.emits ++
      [⟨L_NWELL, ⟨x - nw_enc, ld_y - nw_enc,
                  x + dp_act_len + dp_gap + ld_act_len + nw_enc, ld_y + OTA_LD_W + nw_enc⟩⟩] ++
      m3.emits ++ m4.emits ++
      [⟨L_METAL1, ⟨m1.source.1 - ww / 2, m5.drain.2 - ww / 2,
                   m1.source.1 + ww / 2, m1.source.2 + ww / 2⟩⟩,
       ⟨L_METAL1, ⟨m2.source.1 - ww / 2, m5.drain.2 - ww / 2,
                   m2.source.1 + ww / 2, m2.source.2 + ww / 2⟩⟩,
       ⟨L_METAL1, ⟨m1.source.1 - ww / 2, m5.drain.2 - ww / 2,
                   m2.source.1 + ww / 2, m5.drain.2 + ww / 2⟩⟩,
       ⟨L_METAL1, ⟨m1.drain.1 - ww / 2, m1.drain.2 - ww / 2,
                   m1.drain.1 + ww / 2, m3.drain.2 + ww / 2⟩⟩,
       ⟨L_METAL1, ⟨m2.drain.1 - ww / 2, m2.drain.2 - ww / 2,
                   m2.drain.1 + ww / 2, m4.drain.2 + ww / 2⟩⟩,
       ⟨L_METAL1, ⟨m3.gate.1 - ww / 2, m3.gate.2 - ww / 2,
                   m4.gate.1 + ww / 2, m3.gate.2 + ww / 2⟩⟩,
       ⟨L_METAL1, ⟨m3.drain.1 - ww / 2, m3.gate.2 - ww / 2,
                   m3.drain.1 + ww / 2, m3.drain.2 + ww / 2⟩⟩],
    inp := m1.gate,
    inn := m2.gate,
    out := m4.drain,
    tail := m5.gate,
    vdd_l := m3.source,
    vdd_r := m4.source,
    vss := m5.source,
    total_w := dp_act_len * 2 + dp_gap,
    total_h := (ld_y + OTA_LD_W) - y }

/-- Return value of `draw_bias` plus its rectangles. -/
structure BiasOut where
  emits : List Emit
  ref_drain : ℚ × ℚ
  mir_drain : ℚ × ℚ
  ref_gate : ℚ × ℚ
  ref_source : ℚ × ℚ
  mir_source : ℚ × ℚ
  total_w : ℚ

/-- `draw_bias` from `gen_svf.py`: two-NMOS current mirror. -/
def draw_bias (x y : ℚ) : BiasOut :=
  let ww := M1_WIDTH
  let sd_ext := CONT_SIZE + 2 * CONT_ENC_ACTIV
  let act_len := sd_ext + BIAS_L + sd_ext
  let g : ℚ := 1
  let m_ref := draw_nmos x y BIAS_W BIAS_L
  let m_mir := draw_nmos (x + act_len + g) y BIAS_W BIAS_L
  { emits :=
      m_ref.emits ++ m_mir.emits ++
      [⟨L_METAL1, ⟨m_ref.gate.1 - ww / 2, min m_ref.gate.2 m_ref.drain.2 - ww / 2,
                   m_ref.gate.1 + ww / 2, max m_ref.gate.2 m_ref.drain.2 + ww / 2⟩⟩,
       ⟨L_METAL1, ⟨m_ref.drain.1 - ww / 2, m_ref.gate.2 - ww / 2,
                   m_ref.gate.1 + ww / 2, m_ref.gate.2 + ww / 2⟩⟩,
       ⟨L_METAL1, ⟨m_ref.gate.1 - ww / 2, m_ref.gate.2 - ww / 2,
                   m_mir.gate.1 + ww / 2, m_ref.gate.2 + ww / 2⟩⟩],
    ref_drain := m_ref.drain,
    mir_drain := m_mir.drain,
    ref_gate := m_ref.gate,
    ref_source := m_ref.source,
    mir_source := m_mir.source,
    total_w := 2 * act_len + g }

/-- Return value of `draw_analog_mux` plus its rectangles. -/
structure MuxOut where
  emits : List Emit
  lp_in : ℚ × ℚ
  bp_in : ℚ × ℚ
  hp_in : ℚ × ℚ
  byp_in : ℚ × ℚ
  lp_gate : ℚ × ℚ
  bp_gate : ℚ × ℚ
  hp_gate : ℚ × ℚ
  byp_gate : ℚ × ℚ
  out : ℚ × ℚ
  total_h : ℚ
  act_len : ℚ

/-- `draw_analog_mux` from `gen_svf.py`: 4 NMOS pass gates with common
drains. -/
def draw_analog_mux (x y : ℚ) : MuxOut :=
  let ww := M1_WIDTH
  let sd_ext := CONT_SIZE + 2 * CONT_ENC_ACTIV
  let act_len := sd_ext + MUX_L + sd_ext
  let sw_pitch := MUX_W + 1.5
  let sw0 := draw_nmos x (y + 0 * sw_pitch) MUX_W MUX_L
  let sw1 := draw_nmos x (y + 1 * sw_pitch) MUX_W MUX_L
  let sw2 := draw_nmos x (y + 2 * sw_pitch) MUX_W MUX_L
  let sw3 := draw_nmos x (y + 3 * sw_pitch) MUX_W MUX_L
  let out_x := sw0.drain.1
  { emits :=
      sw0.emits ++ sw1.emits ++ sw2.emits ++ sw3.emits ++
      [⟨L_METAL1, ⟨out_x - ww / 2, sw0.drain.2 - ww / 2,
                   out_x + ww / 2, sw3.drain.2 + ww / 2⟩⟩],
    lp_in := sw0.source,
    bp_in := sw1.source,
    hp_in := sw2.source,
    byp_in := sw3.source,
    lp_gate := sw0.gate,
    bp_gate := sw1.gate,
    hp_gate := sw2.gate,
    byp_gate := sw3.gate,
    out := sw0.drain,
    total_h := 4 * sw_pitch,
    act_len := act_len }

def ota_y : ℚ := 63
def ota_gap : ℚ := 2.5

def ota_sum : OtaOut := draw_ota 2 ota_y
def ota1_x : ℚ := 2 + ota_sum.total_w + ota_gap
def ota_int1 : OtaOut := draw_ota ota1_x ota_y
def ota2_x : ℚ := ota1_x + ota_int1.total_w + ota_gap
def ota_int2 : OtaOut := draw_ota ota2_x ota_y
def ota_damp_x : ℚ := ota2_x + ota_int2.total_w + ota_gap
def ota_damp : OtaOut := draw_ota ota_damp_x ota_y

def otas : List OtaOut := [ota_sum, ota_int1, ota_int2, ota_damp]

/-- OTA PMOS sources to the VDD rail (M1 riser + via1 + via2 per pin). -/
def otaVddEmits : List Emit :=
  emitConcat (fun ota =>
    emitConcat (fun p =>
      [⟨L_METAL1, ⟨p.1 - M1_WIDTH / 2, p.2 - M1_WIDTH / 2,
                   p.1 + M1_WIDTH / 2, MACRO_H - 2.5⟩⟩] ++
      draw_via1 p.1 (MACRO_H - 2.5) ++ draw_via2 p.1 (MACRO_H - 1))
      [ota.vdd_l, ota.vdd_r]) otas

/-- OTA tail sources to the VSS rail. -/
def otaVssEmits : List Emit :=
  emitConcat (fun ota =>
    draw_via1 ota.vss.1 ota.vss.2 ++
    [⟨L_METAL2, ⟨ota.vss.1 - M2_WIDTH / 2, 2.5, ota.vss.1 + M2_WIDTH / 2, ota.vss.2⟩⟩] ++
    draw_via2 ota.vss.1 1) otas

def bias_y : ℚ := 57
def bias_fc_x : ℚ := 2
def bias_fc : BiasOut := draw_bias bias_fc_x bias_y
def bias_q_x : ℚ := bias_fc_x + bias_fc.total_w + 2
def bias_q : BiasOut := draw_bias bias_q_x bias_y

/-- fc bias bus to the OTA1/2/3 tail gates. -/
def fcBusEmits : List Emit :=
  let fc_bus_y := bias_fc.mir_drain.2
  let bx_fc := bias_fc.mir_drain.1
  let rightmost := ota_int2.tail.1
  [⟨L_METAL1, ⟨bx_fc - M1_WIDTH / 2, fc_bus_y - M1_WIDTH / 2,
               rightmost + M1_WIDTH / 2, fc_bus_y + M1_WIDTH / 2⟩⟩] ++
  emitConcat (fun ota =>
    [⟨L_METAL1, ⟨ota.tail.1 - M1_WIDTH / 2, fc_bus_y - M1_WIDTH / 2,
                 ota.tail.1 + M1_WIDTH / 2, ota.tail.2 + M1_WIDTH / 2⟩⟩])
    [ota_sum, ota_int1, ota_int2]

/-- q bias bus to the damping OTA tail gate. -/
def qBusEmits : List Emit :=
  let q_bus_y := bias_q.mir_drain.2
  let bx_q := bias_q.mir_drain.1
  [⟨L_METAL1, ⟨bx_q - M1_WIDTH / 2, q_bus_y - M1_WIDTH / 2,
               ota_damp.tail.1 + M1_WIDTH / 2, q_bus_y + M1_WIDTH / 2⟩⟩,
   ⟨L_METAL1, ⟨ota_damp.tail.1 - M1_WIDTH / 2, q_bus_y - M1_WIDTH / 2,
               ota_damp.tail.1 + M1_WIDTH / 2, ota_damp.tail.2 + M1_WIDTH / 2⟩⟩]

/-- Bias mirror sources down to the VSS rail. -/
def biasVssEmits : List Emit :=
  emitConcat (fun b =>
    emitConcat (fun s =>
      draw_via1 s.1 s.2 ++
      [⟨L_METAL2, ⟨s.1 - M2_WIDTH / 2, 2.5, s.1 + M2_WIDTH / 2, s.2⟩⟩] ++
      draw_via2 s.1 1)
      [b.ref_source, b.mir_source]) [bias_fc, bias_q]

def cap_y : ℚ := 30
def c1_x : ℚ := 3
def c1 : MimOut := draw_mim_cap c1_x cap_y C_INT_SIDE C_INT_SIDE
def c2_x : ℚ := c1_x + C_INT_SIDE + MIM_SPACE + 2 * MIM_ENC_M5 + 1
def c2 : MimOut := draw_mim_cap c2_x cap_y C_INT_SIDE C_INT_SIDE

def hp_route_y : ℚ := ota_y - 1
def bp_route_y : ℚ := ota_y - 2.5
def lp_route_y : ℚ := ota_y - 4

/-- HP / BP / LP node routing plus damping-OTA routing, in source order. -/
def signalRouteEmits : List Emit :=
  let w2 := M2_WIDTH
  let hp_x1 := ota_sum.out.1
  let hp_y1 := ota_sum.out.2
  let hp_x2 := ota_int1.inp.1
  let hp_y2 := ota_int1.inp.2
  let bp_x1 := ota_int1.out.1
  let bp_y1 := ota_int1.out.2
  let bp_x2 := ota_int2.inp.1
  let bp_y2 := ota_int2.inp.2
  let lp_x1 := ota_int2.out.1
  let lp_y1 := ota_int2.out.2
  let fb_x := ota_sum.inn.1
  let fb_y := ota_sum.inn.2
  let di_x := ota_damp.inp.1
  let di_y := ota_damp.inp.2
  let dn_x := ota_damp.inn.1
  let dn_y := ota_damp.inn.2
  let do_x := ota_damp.out.1
  let do_y := ota_damp.out.2
  let damp_out_route_y := ota_y - 5.5
  draw_via1 hp_x1 hp_y1 ++ draw_via1 hp_x2 hp_y2 ++
  [⟨L_METAL2, ⟨hp_x1 - w2 / 2, hp_route_y - w2 / 2, hp_x1 + w2 / 2, hp_y1 + w2 / 2⟩⟩,
   ⟨L_METAL2, ⟨hp_x1 - w2 / 2, hp_route_y - w2 / 2, hp_x2 + w2 / 2, hp_route_y + w2 / 2⟩⟩,
   ⟨L_METAL2, ⟨hp_x2 - w2 / 2, hp_route_y - w2 / 2, hp_x2 + w2 / 2, hp_y2 + w2 / 2⟩⟩] ++
  draw_via1 bp_x1 bp_y1 ++ draw_via1 bp_x2 bp_y2 ++
  [⟨L_METAL2, ⟨bp_x1 - w2 / 2, bp_route_y - w2 / 2, bp_x1 + w2 / 2, bp_y1 + w2 / 2⟩⟩,
   ⟨L_METAL2, ⟨bp_x1 - w2 / 2, bp_route_y - w2 / 2, bp_x2 + w2 / 2, bp_route_y + w2 / 2⟩⟩,
   ⟨L_METAL2, ⟨bp_x2 - w2 / 2, bp_route_y - w2 / 2, bp_x2 + w2 / 2, bp_y2 + w2 / 2⟩⟩,
   ⟨L_METAL2, ⟨bp_x1 - w2 / 2, c1.top.2 - w2 / 2, bp_x1 + w2 / 2, bp_route_y + w2 / 2⟩⟩] ++
  draw_via1 lp_x1 lp_y1 ++ draw_via1 fb_x fb_y ++
  [⟨L_METAL2, ⟨lp_x1 - w2 / 2, lp_route_y - w2 / 2, lp_x1 + w2 / 2, lp_y1 + w2 / 2⟩⟩,
   ⟨L_METAL2, ⟨min fb_x lp_x1 - w2 / 2, lp_route_y - w2 / 2,
               max fb_x lp_x1 + w2 / 2, lp_route_y + w2 / 2⟩⟩,
   ⟨L_METAL2, ⟨fb_x - w2 / 2, lp_route_y - w2 / 2, fb_x + w2 / 2, fb_y + w2 / 2⟩⟩,
   ⟨L_METAL2, ⟨lp_x1 - w2 / 2, c2.top.2 - w2 / 2, lp_x1 + w2 / 2, lp_route_y + w2 / 2⟩⟩] ++
  draw_via1 di_x di_y ++
  [⟨L_METAL2, ⟨di_x - w2 / 2, bp_route_y - w2 / 2, di_x + w2 / 2, di_y + w2 / 2⟩⟩,
   ⟨L_METAL2, ⟨bp_x2 - w2 / 2, bp_route_y - w2 / 2, di_x + w2 / 2, bp_route_y + w2 / 2⟩⟩] ++
  draw_via1 dn_x dn_y ++
  [⟨L_METAL2, ⟨dn_x - w2 / 2, hp_route_y - w2 / 2, dn_x + w2 / 2, dn_y + w2 / 2⟩⟩,
   ⟨L_METAL2, ⟨hp_x2 - w2 / 2, hp_route_y - w2 / 2, dn_x + w2 / 2, hp_route_y + w2 / 2⟩⟩] ++
  draw_via1 do_x do_y ++
  [⟨L_METAL2, ⟨do_x - w2 / 2, damp_out_route_y - w2 / 2, do_x + w2 / 2, do_y + w2 / 2⟩⟩,
   ⟨L_METAL2, ⟨min hp_x1 do_x - w2 / 2, damp_out_route_y - w2 / 2,
               max hp_x1 do_x + w2 / 2, damp_out_route_y + w2 / 2⟩⟩,
   ⟨L_METAL2, ⟨hp_x1 - w2 / 2, damp_out_route_y - w2 / 2,
               hp_x1 + w2 / 2, hp_route_y + w2 / 2⟩⟩]

def mux : MuxOut := draw_analog_mux 42 6

/-- Mux input taps and the vin / vout / sel / ibias pin routing. -/
def pinRouteEmits : List Emit :=
  let w2 := M2_WIDTH
  let vin_pin_y : ℚ := 42
  let vout_pin_y : ℚ := 42
  let vin_ota_x := ota_sum.inp.1
  let vin_ota_y := ota_sum.inp.2
  let vout_jog_x := mux.out.1 + 1.5
  let hp_src_x := ota_sum.out.1
  draw_via1 mux.lp_in.1 mux.lp_in.2 ++
  [⟨L_METAL2, ⟨c2_x + C_INT_SIDE / 2 - w2 / 2, mux.lp_in.2 - w2 / 2,
               mux.lp_in.1 + w2 / 2, mux.lp_in.2 + w2 / 2⟩⟩] ++
  draw_via1 mux.bp_in.1 mux.bp_in.2 ++
  [⟨L_METAL2, ⟨c1_x + C_INT_SIDE / 2 - w2 / 2, mux.bp_in.2 - w2 / 2,
               mux.bp_in.1 + w2 / 2, mux.bp_in.2 + w2 / 2⟩⟩] ++
  draw_via1 mux.hp_in.1 mux.hp_in.2 ++
  [⟨L_METAL2, ⟨min hp_src_x mux.hp_in.1 - w2 / 2, mux.hp_in.2 - w2 / 2,
               max hp_src_x mux.hp_in.1 + w2 / 2, mux.hp_in.2 + w2 / 2⟩⟩] ++
  draw_via1 vin_ota_x vin_ota_y ++
  [⟨L_METAL2, ⟨0, vin_pin_y - w2 / 2, vin_ota_x + w2 / 2, vin_pin_y + w2 / 2⟩⟩,
   ⟨L_METAL2, ⟨vin_ota_x - w2 / 2, vin_pin_y - w2 / 2,
               vin_ota_x + w2 / 2, vin_ota_y + w2 / 2⟩⟩] ++
  draw_via1 mux.byp_in.1 mux.byp_in.2 ++
  [⟨L_METAL2, ⟨vin_ota_x - w2 / 2, mux.byp_in.2 - w2 / 2,
               mux.byp_in.1 + w2 / 2, mux.byp_in.2 + w2 / 2⟩⟩,
   ⟨L_METAL2, ⟨vin_ota_x - w2 / 2, mux.byp_in.2 - w2 / 2,
               vin_ota_x + w2 / 2, vin_pin_y + w2 / 2⟩⟩] ++
  draw_via1 mux.out.1 mux.out.2 ++
  [⟨L_METAL2, ⟨mux.out.1 - w2 / 2, mux.out.2 - w2 / 2,
               vout_jog_x + w2 / 2, mux.out.2 + w2 / 2⟩⟩,
   ⟨L_METAL2, ⟨vout_jog_x - w2 / 2, min mux.out.2 vout_pin_y - w2 / 2,
               vout_jog_x + w2 / 2, max mux.out.2 vout_pin_y + w2 / 2⟩⟩,
   ⟨L_METAL2, ⟨vout_jog_x - w2 / 2, vout_pin_y - w2 / 2, MACRO_W, vout_pin_y + w2 / 2⟩⟩,
   ⟨L_METAL2, ⟨0, 10 - w2 / 2, mux.lp_gate.1 + w2 / 2, 10 + w2 / 2⟩⟩,
   ⟨L_METAL2, ⟨0, 16 - w2 / 2, mux.bp_gate.1 + w2 / 2, 16 + w2 / 2⟩⟩] ++
  draw_via1 bias_fc.ref_drain.1 bias_fc.ref_drain.2 ++
  [⟨L_METAL2, ⟨0, 60 - w2 / 2, bias_fc.ref_drain.1 + w2 / 2, 60 + w2 / 2⟩⟩,
   ⟨L_METAL2, ⟨bias_fc.ref_drain.1 - w2 / 2, min 60 bias_fc.ref_drain.2 - w2 / 2,
               bias_fc.ref_drain.1 + w2 / 2, max 60 bias_fc.ref_drain.2 + w2 / 2⟩⟩] ++
  draw_via1 bias_q.ref_drain.1 bias_q.ref_drain.2 ++
  [⟨L_METAL2, ⟨0, 66 - w2 / 2, bias_q.ref_drain.1 + w2 / 2, 66 + w2 / 2⟩⟩,
   ⟨L_METAL2, ⟨bias_q.ref_drain.1 - w2 / 2, min 66 bias_q.ref_drain.2 - w2 / 2,
               bias_q.ref_drain.1 + w2 / 2, max 66 bias_q.ref_drain.2 + w2 / 2⟩⟩]

def pin_calls : List PinCall :=
  [⟨L_METAL2_PIN, L_METAL2_LBL, ⟨0, 42 - 2, 0.5, 42 + 2⟩, "vin"⟩,
   ⟨L_METAL2_PIN, L_METAL2_LBL, ⟨MACRO_W - 0.5, 42 - 2, MACRO_W, 42 + 2⟩, "vout"⟩,
   ⟨L_METAL2_PIN, L_METAL2_LBL, ⟨0, 10 - 1, 0.5, 10 + 1⟩, "sel[0]"⟩,
   ⟨L_METAL2_PIN, L_METAL2_LBL, ⟨0, 16 - 1, 0.5, 16 + 1⟩, "sel[1]"⟩,
   ⟨L_METAL2_PIN, L_METAL2_LBL, ⟨0, 60 - 1, 0.5, 60 + 1⟩, "ibias_fc"⟩,
   ⟨L_METAL2_PIN, L_METAL2_LBL, ⟨0, 66 - 1, 0.5, 66 + 1⟩, "ibias_q"⟩,
   ⟨L_METAL3_PIN, L_METAL3_LBL, ⟨0, MACRO_H - 2, MACRO_W, MACRO_H⟩, "vdd"⟩,
   ⟨L_METAL3_PIN, L_METAL3_LBL, ⟨0, 0, MACRO_W, 2⟩, "vss"⟩]

/-- Boundary layer used by `build_svf` (`layout.layer(0, 0)`). -/
def L_SVFBND : Layer := (0, 0)

/-- `build_svf`: the full macro driver of `gen_svf.py`. -/
def build_svf : CellQ :=
  { cellName := "svf_2nd"
  , emits :=
      [⟨L_METAL3, ⟨0, MACRO_H - 2, MACRO_W, MACRO_H⟩⟩,
       ⟨L_METAL3, ⟨0, 0, MACRO_W, 2⟩⟩] ++
      ota_sum.emits ++ ota_int1.emits ++ ota_int2.emits ++ ota_damp.emits ++
      otaVddEmits ++ otaVssEmits ++
      bias_fc.emits ++ bias_q.emits ++
      fcBusEmits ++ qBusEmits ++ biasVssEmits ++
      c1.emits ++ c2.emits ++
      signalRouteEmits ++
      mux.emits ++
      pinRouteEmits ++
      pin_calls.map pinCallEmit ++ [⟨L_SVFBND, ⟨0, 0, MACRO_W, MACRO_H⟩⟩]
  , labels := pin_calls.map pinCallLabel }

end Svf

-- ===========================================================================
-- run_drc.py : standalone rule checker
-- ===========================================================================

namespace Drc

/-- The cell under check, as read back from the persisted layout: a flat list
of (layer, stored dbu box). -/
abbrev DrcCell := List (Layer × BoxDb)

/-- The boxes of one layer of the cell
(`pya.Region(top.begin_shapes_rec(li))`). -/
def layerRects (c : DrcCell) (l : Layer) : List BoxDb :=
  (c.filter (fun e => decide (e.1 = l))).map (fun e => e.2)

/-- Point-set reading of a stored box (grid points covered by the box). -/
def boxPts (b : BoxDb) : Set (ℤ × ℤ) :=
  {p | b.x1 ≤ p.1 ∧ p.1 ≤ b.x2 ∧ b.y1 ≤ p.2 ∧ p.2 ≤ b.y2}

/-- Point set of a list of boxes (the region they merge into). -/
def ptsOfRects (rs : List BoxDb) : Set (ℤ × ℤ) :=
  rs.foldr (fun b acc => boxPts b ∪ acc) ∅

/-- Isotropic grow by `d` grid units (`Region.sized`), as a point-set
operation: Minkowski sum with the `2d × 2d` square. -/
def dilate (d : ℤ) (s : Set (ℤ × ℤ)) : Set (ℤ × ℤ) :=
  {p | ∃ q ∈ s, |p.1 - q.1| ≤ d ∧ |p.2 - q.2| ≤ d}

/-- The external planar-geometry engine the checker runs on (spec §6): region
construction, emptiness, width/spacing checks, boolean operations, grow, and
marker counting, together with the point-set meaning of the boolean
operations.  `width_check` / `space_check` are engine primitives the checker
only forwards a grid threshold to; no law about their content is assumed. -/
structure GeomOps (Region : Type) where
  fromRects : List BoxDb → Region
  isEmpty : Region → Bool
  widthCheck : ℤ → Region → Region
  spaceCheck : ℤ → Region → Region
  inter : Region → Region → Region
  diff : Region → Region → Region
  sized : ℤ → Region → Region
  size : Region → ℕ
  denote : Region → Set (ℤ × ℤ)
  isEmpty_iff : ∀ r, isEmpty r = true ↔ denote r = ∅
  denote_fromRects : ∀ rs, denote (fromRects rs) = ptsOfRects rs
  denote_inter : ∀ a b, denote (inter a b) = denote a ∩ denote b
  denote_diff : ∀ a b, denote (diff a b) = denote a \ denote b
  denote_sized : ∀ d a, 0 ≤ d → denote (sized d a) = dilate d (denote a)

inductive CheckKind where
  | width
  | space
deriving DecidableEq

/-- One width/spacing rule of the `RULES` table. -/
structure WsRule where
  name : String
  desc : String
  layer : Layer
  kind : CheckKind
  value : ℚ

/-- One enclosure rule of the `ENC_RULES` table. -/
structure EncRule where
  name : String
  desc : String
  inner : Layer
  outer : Layer
  minEnc : ℚ

/-- The `RULES` table of `run_drc.py`. -/
def RULES : List WsRule :=
  [⟨"Act.a", "Min Activ width", L_ACTIV, .width, 0.15⟩,
   ⟨"Act.b", "Min Activ spacing", L_ACTIV, .space, 0.21⟩,
   ⟨"Gat.a", "Min GatPoly width", L_GATPOLY, .width, 0.13⟩,
   ⟨"Gat.b", "Min GatPoly spacing", L_GATPOLY, .space, 0.18⟩,
   ⟨"Cnt.a", "Min Cont size (width)", L_CONT, .width, 0.16⟩,
   ⟨"Cnt.b", "Min Cont spacing", L_CONT, .space, 0.18⟩,
   ⟨"M1.a", "Min Metal1 width", L_METAL1, .width, 0.16⟩,
   ⟨"M1.b", "Min Metal1 spacing", L_METAL1, .space, 0.18⟩,
   ⟨"M2.a", "Min Metal2 width", L_METAL2, .width, 0.20⟩,
   ⟨"M2.b", "Min Metal2 spacing", L_METAL2, .space, 0.21⟩,
   ⟨"M3.a", "Min Metal3 width", L_METAL3, .width, 0.20⟩,
   ⟨"M3.b", "Min Metal3 spacing", L_METAL3, .space, 0.21⟩,
   ⟨"V1.a", "Min Via1 size (width)", L_VIA1, .width, 0.19⟩,
   ⟨"V1.b", "Min Via1 spacing", L_VIA1, .space, 0.22⟩,
   ⟨"Sal.a", "Min SalBlock width", L_SALBLOCK, .width, 0.50⟩,
   ⟨"NW.a", "Min NWell width", L_NWELL, .width, 0.62⟩,
   ⟨"NW.b", "Min NWell spacing", L_NWELL, .space, 0.62⟩,
   ⟨"M5.a", "Min Metal5 width", L_METAL5, .width, 0.20⟩,
   ⟨"M5.b", "Min Metal5 spacing", L_METAL5, .space, 0.21⟩,
   ⟨"MIM.a", "Min Cmim size", L_CMIM, .width, 1.14⟩,
   ⟨"MIM.b", "Min Cmim spacing", L_CMIM, .space, 0.60⟩,
   ⟨"TM1.a", "Min TopMetal1 width", L_TOPMETAL1, .width, 0.20⟩,
   ⟨"TM1.b", "Min TopMetal1 spacing", L_TOPMETAL1, .space, 0.21⟩]

/-- The `ENC_RULES` table of `run_drc.py`. -/
def ENC_RULES : List EncRule :=
  [⟨"Cnt.c", "Min Activ enclosure of Cont", L_CONT, L_ACTIV, 0.07⟩,
   ⟨"Cnt.d", "Min GatPoly enclosure of Cont", L_CONT, L_GATPOLY, 0.07⟩,
   ⟨"V1.c", "Min Metal1 enclosure of Via1", L_VIA1, L_METAL1, 0.01⟩,
   ⟨"M2.c", "Min Metal2 enclosure of Via1", L_VIA1, L_METAL2, 0.005⟩,
   ⟨"NW.c", "Min NWell enclosure of Activ(pSD)", L_ACTIV, L_NWELL, 0.31⟩,
   ⟨"MIM.c", "Min Metal5 enclosure of Cmim", L_CMIM, L_METAL5, 0.60⟩]

/-- `layout.dbu` of the generated layouts (1 nm grid). -/
def dbu : ℚ := 0.001

/-- One line of the report: (rule name, description, count, markers). -/
structure RuleResult (Region : Type) where
  name : String
  desc : String
  count : ℕ
  markers : Region

/-- One iteration of the width/spacing loop of `run_drc`: `none` means the
rule was skipped because its layer holds no geometry. -/
def evalWsRule {R : Type} (ops : GeomOps R) (c : DrcCell) (r : WsRule) :
    Option (RuleResult R) :=
  let region := ops.fromRects (layerRects c r.layer)
  if ops.isEmpty region then none
  else
    let value_dbu := pyround (r.value / dbu)
    let markers :=
      match r.kind with
      | .width => ops.widthCheck value_dbu region
      | .space => ops.spaceCheck value_dbu region
    some ⟨r.name, r.desc, ops.size markers, markers⟩

/-- One iteration of the enclosure loop of `run_drc`: skip when the inner or
outer region is empty, or when their overlap is empty; otherwise the
violations are the overlap grown by the rounded margin minus the outer
region. -/
def evalEncRule {R : Type} (ops : GeomOps R) (c : DrcCell) (r : EncRule) :
    Option (RuleResult R) :=
  let inner := ops.fromRects (layerRects c r.inner)
  let outer := ops.fromRects (layerRects c r.outer)
  if ops.isEmpty inner || ops.isEmpty outer then none
  else
    let enc_dbu := pyround (r.minEnc / dbu)
    let inner_in_outer := ops.inter inner outer
    if ops.isEmpty inner_in_outer then none
    else
      let violations := ops.diff (ops.sized enc_dbu inner_in_outer) outer
      some ⟨r.name, r.desc, ops.size violations, violations⟩

/-- Accumulate the report lines and the running violation total over one rule
table, keeping table order and dropping skipped rules. -/
def collect {α R : Type} (step : α → Option (RuleResult R)) :
    List α → List (RuleResult R) × ℕ
  | [] => ([], 0)
  | r :: rest =>
    let acc := collect step rest
    match step r with
    | none => acc
    | some rr => (rr :: acc.1, rr.count + acc.2)

/-- `run_drc` (the pure result): report lines in table order, plus
`total_errors`. -/
def run_drc {R : Type} (ops : GeomOps R) (c : DrcCell) :
    List (RuleResult R) × ℕ :=
  let ws := collect (evalWsRule ops c) RULES
  let enc := collect (evalEncRule ops c) ENC_RULES
  (ws.1 ++ enc.1, ws.2 + enc.2)

/-- The only cell operation the checker performs: read one layer's shapes.
It is threaded through the state-passing variant below so that non-mutation
of the cell is a provable statement rather than a convention. -/
def readLayer (c : DrcCell) (l : Layer) : List BoxDb × DrcCell :=
  (layerRects c l, c)

/-- State-passing variant of the width/spacing iteration. -/
def evalWsRuleSt {R : Type} (ops : GeomOps R) (r : WsRule) (c : DrcCell) :
    Option (RuleResult R) × DrcCell :=
  let rd := readLayer c r.layer
  let region := ops.fromRects rd.1
  if ops.isEmpty region then (none, rd.2)
  else
    let value_dbu := pyround (r.value / dbu)
    let markers :=
      match r.kind with
      | .width => ops.widthCheck value_dbu region
      | .space => ops.spaceCheck value_dbu region
    (some ⟨r.name, r.desc, ops.size markers, markers⟩, rd.2)

/-- State-passing variant of the enclosure iteration. -/
def evalEncRuleSt {R : Type} (ops : GeomOps R) (r : EncRule) (c : DrcCell) :
    Option (RuleResult R) × DrcCell :=
  let rdi := readLayer c r.inner
  let rdo := readLayer rdi.2 r.outer
  let inner := ops.fromRects rdi.1
  let outer := ops.fromRects rdo.1
  if ops.isEmpty inner || ops.isEmpty outer then (none, rdo.2)
  else
    let enc_dbu := pyround (r.minEnc / dbu)
    let inner_in_outer := ops.inter inner outer
    if ops.isEmpty inner_in_outer then (none, rdo.2)
    else
      let violations := ops.diff (ops.sized enc_dbu inner_in_outer) outer
      (some ⟨r.name, r.desc, ops.size violations, violations⟩, rdo.2)

/-- State-passing accumulation over a rule table. -/
def collectSt {α R : Type}
    (step : α → DrcCell → Option (RuleResult R) × DrcCell) :
    List α → DrcCell → (List (RuleResult R) × ℕ) × DrcCell
  | [], c => (([], 0), c)
  | r :: rest, c =>
    let s := step r c
    let acc := collectSt step rest s.2
    match s.1 with
    | none => acc
    | some rr => ((rr :: acc.1.1, rr.count + acc.1.2), acc.2)

/-- `run_drc`, with the cell threaded through every operation that touches
it. -/
def run_drc_st {R : Type} (ops : GeomOps R) (c : DrcCell) :
    (List (RuleResult R) × ℕ) × DrcCell :=
  let ws := collectSt (evalWsRuleSt ops) RULES c
  let enc := collectSt (evalEncRuleSt ops) ENC_RULES ws.2
  ((ws.1.1 ++ enc.1.1, ws.1.2 + enc.1.2), enc.2)

/-- Grid points of a stored box, as a finite set. -/
def boxFin (b : BoxDb) : Finset (ℤ × ℤ) :=
  Finset.Icc b.x1 b.x2 ×ˢ Finset.Icc b.y1 b.y2

/-- Finite-set region built from a box list. -/
def finFromRects (rs : List BoxDb) : Finset (ℤ × ℤ) :=
  rs.foldr (fun b acc => boxFin b ∪ acc) ∅

/-- Finite-set grow: union of the `2d × 2d` squares around the region's
points. -/
def finSized (d : ℤ) (r : Finset (ℤ × ℤ)) : Finset (ℤ × ℤ) :=
  r.biUnion (fun q => boxFin ⟨q.1 - d, q.2 - d, q.1 + d, q.2 + d⟩)

/-- A concrete executable model of the geometry engine on finite point sets,
used to instantiate the checker theorems.  The width/spacing primitives are
engine internals outside the modelled core; this test engine reports no
width/spacing markers. -/
def finOps : GeomOps (Finset (ℤ × ℤ)) where
  fromRects := finFromRects
  isEmpty r := decide (r = ∅)
  widthCheck _ _ := ∅
  spaceCheck _ _ := ∅
  inter a b := a ∩ b
  diff a b := a \ b
  sized := finSized
  size r := r.card
  denote r := ↑r
  isEmpty_iff := by
    intro r
    simp [Finset.coe_eq_empty]
  denote_fromRects := by
    have hbox : ∀ b : BoxDb, (↑(boxFin b) : Set (ℤ × ℤ)) = boxPts b := by
      intro b
      ext p
      simp only [boxFin, boxPts, Finset.coe_sort_coe, Finset.mem_coe,
        Finset.mem_product, Finset.mem_Icc, Set.mem_setOf_eq]
      tauto
    intro rs
    induction rs with
    | nil => simp [finFromRects, ptsOfRects]
    | cons b rest ih =>
      simp only [finFromRects, ptsOfRects, List.foldr_cons, Finset.coe_union] at ih ⊢
      rw [hbox, ih]
  denote_inter := by
    intro a b
    exact Finset.coe_inter a b
  denote_diff := by
    intro a b
    exact Finset.coe_sdiff a b
  denote_sized := by
    intro d a _hd
    ext p
    simp only [finSized, dilate, Finset.coe_biUnion, Set.mem_iUnion,
      Finset.mem_coe, boxFin, Finset.mem_product, Finset.mem_Icc,
      Set.mem_setOf_eq, abs_le]
    constructor
    · rintro ⟨q, hq, h⟩
      refine ⟨q, hq, ?_⟩
      omega
    · rintro ⟨q, hq, h⟩
      refine ⟨q, hq, ?_⟩
      omega

end Drc

-- ===========================================================================
-- Auxiliary definitions for the claim statements
-- ===========================================================================

/-- Transpose of a point about the origin `(x, y)`: x and y offsets from the
origin are swapped. -/
def transposePt (x y : ℚ) (p : ℚ × ℚ) : ℚ × ℚ :=
  (x + (p.2 - y), y + (p.1 - x))

/-- Transpose of a rectangle about the origin `(x, y)`. -/
def transposeRect (x y : ℚ) (r : Rect) : Rect :=
  ⟨x + (r.y1 - y), y + (r.x1 - x), x + (r.y2 - y), y + (r.x2 - x)⟩

/-- Transpose of an insertion (layer kept, rectangle transposed). -/
def transposeEmit (x y : ℚ) (e : Emit) : Emit :=
  ⟨e.layer, transposeRect x y e.box⟩

/-- A small test cell for the enclosure-rule theorems: one contact box inside
one Activ box. -/
def encTestCell : Drc.DrcCell :=
  [(L_CONT, ⟨0, 0, 1, 1⟩), (L_ACTIV, ⟨0, 0, 2, 2⟩)]

/-- The first enclosure rule of the table (Activ enclosure of Cont). -/
def encTestRule : Drc.EncRule :=
  ⟨"Cnt.c", "Min Activ enclosure of Cont", L_CONT, L_ACTIV, 0.07⟩

/-- The first width rule of the table (used to instantiate the skip
theorems). -/
def wsTestRule : Drc.WsRule := ⟨"Act.a", "Min Activ width", L_ACTIV, .width, 0.15⟩

/-- An inner-layer box far away from all outer geometry of `encTestCell`. -/
def encFarBox : BoxDb := ⟨100, 100, 101, 101⟩

-- ===========================================================================
-- Helper lemmas
-- ===========================================================================

theorem mem_emitConcat {α : Type} {f : α → List Emit} {x : α} {l : List α}
    (hx : x ∈ l) {e : Emit} (he : e ∈ f x) : e ∈ emitConcat f l := by
  induction l with
  | nil => cases hx
  | cons a rest ih =>
    rcases List.mem_cons.mp hx with h | h
    · subst h
      exact List.mem_append.mpr (Or.inl he)
    · exact List.mem_append.mpr (Or.inr (ih h))

theorem sublist_emitConcat {α : Type} {f : α → List Emit} {x : α} {l : List α}
    (hx : x ∈ l) : (f x).Sublist (emitConcat f l) := by
  induction l with
  | nil => cases hx
  | cons a rest ih =>
    rcases List.mem_cons.mp hx with h | h
    · subst h
      exact List.sublist_append_left _ _
    · exact (ih h).trans (List.sublist_append_right _ _)

theorem pyround_nonneg {q : ℚ} (h : 0 ≤ q) : 0 ≤ pyround q := by
  have hf : (0 : ℤ) ≤ ⌊q⌋ := Int.le_floor.mpr (by exact_mod_cast h)
  show (0 : ℤ) ≤
    if q - (⌊q⌋ : ℚ) < 1 / 2 then ⌊q⌋
    else if 1 / 2 < q - (⌊q⌋ : ℚ) then ⌊q⌋ + 1
    else if ⌊q⌋ % 2 = 0 then ⌊q⌋ else ⌊q⌋ + 1
  split
  · exact hf
  · split
    · omega
    · split
      · exact hf
      · omega

theorem pyround_intCast (m : ℤ) : pyround (m : ℚ) = m := by
  unfold pyround
  norm_num

-- ===========================================================================
-- Claim theorems
-- ===========================================================================

/-- C1, counterexample: the resistor builder contains no validation at all.
Called with the body length computed from a 0 Ω target
(`0 / RHIGH_SHEET_R * R_WIDTH`), `draw_resistor_h` does not fail with an
invalid-parameter error: it returns normally and emits its full 7-rectangle
geometry. -/
theorem C1_zero_target_counterexample :
    (R2R.draw_resistor_h 0 0 (0 / R2R.RHIGH_SHEET_R * R2R.R_WIDTH) R2R.R_WIDTH).emits.length = 7 ∧
    (R2R.draw_resistor_h 0 0 (0 / R2R.RHIGH_SHEET_R * R2R.R_WIDTH) R2R.R_WIDTH).emits ≠ [] :=
  ⟨rfl, by decide⟩

/-- C1, amended: `draw_resistor_h` never fails — for every origin, body length
and width it returns normally with exactly 7 rectangles; however, for any
non-negative body length (in particular the length 0 computed from a 0 Ω
target), the emitted GatPoly body rectangle is never zero-length: its total
extent is `length + 2 * (PAD_W + SAL_SPACE_CONT)`, which is strictly
positive because the two contact pads and the SalBlock clearances are always
added. -/
theorem C1_no_validation_positive_body (x y length width : ℚ) (h : 0 ≤ length) :
    (R2R.draw_resistor_h x y length width).emits.length = 7 ∧
    (R2R.draw_resistor_h x y length width).emits.head? =
      some ⟨L_GATPOLY, ⟨x, y, x + (length + 2 * (R2R.PAD_W + SAL_SPACE_CONT)), y + width⟩⟩ ∧
    0 < length + 2 * (R2R.PAD_W + SAL_SPACE_CONT) := by
  refine ⟨rfl, ?_, ?_⟩
  · simp only [R2R.draw_resistor_h, List.head?]
    norm_num [R2R.PAD_W, SAL_SPACE_CONT, CONT_SIZE, CONT_ENC_GATPOLY]
    ring
  · have : R2R.PAD_W + SAL_SPACE_CONT = 0.52 := by
      norm_num [R2R.PAD_W, SAL_SPACE_CONT, CONT_SIZE, CONT_ENC_GATPOLY]
    rw [this]
    linarith

/-- C1, witness for the amended theorem at the 0 Ω target length. -/
theorem C1_witness :
    (R2R.draw_resistor_h 0 0 (0 / R2R.RHIGH_SHEET_R * R2R.R_WIDTH) R2R.R_WIDTH).emits.length = 7 ∧
    (R2R.draw_resistor_h 0 0 (0 / R2R.RHIGH_SHEET_R * R2R.R_WIDTH) R2R.R_WIDTH).emits.head? =
      some ⟨L_GATPOLY, ⟨0, 0, 0 + ((0 / R2R.RHIGH_SHEET_R * R2R.R_WIDTH) + 2 * (R2R.PAD_W + SAL_SPACE_CONT)), 0 + R2R.R_WIDTH⟩⟩ ∧
    0 < (0 / R2R.RHIGH_SHEET_R * R2R.R_WIDTH) + 2 * (R2R.PAD_W + SAL_SPACE_CONT) :=
  C1_no_validation_positive_body 0 0 (0 / R2R.RHIGH_SHEET_R * R2R.R_WIDTH) R2R.R_WIDTH
    (by norm_num [R2R.RHIGH_SHEET_R, R2R.R_WIDTH])

/-- C3, counterexample: the transistor builder contains no minimum-dimension
validation.  Called with gate length 0.05 µm — below the 0.13 µm GatPoly
minimum — `draw_nmos` does not fail: it returns normally and emits the gate
poly rectangle at exactly the requested below-minimum length. -/
theorem C3_below_min_counterexample :
    (R2R.draw_nmos 0 0 2 0.05).emits.length = 7 ∧
    (R2R.draw_nmos 0 0 2 0.05).emits.get? 2 =
      some ⟨L_GATPOLY, ⟨0.32, -0.18, 0.37, 2.18⟩⟩ ∧
    (0.37 : ℚ) - 0.32 = 0.05 ∧ (0.05 : ℚ) < GATPOLY_WIDTH := by
  refine ⟨rfl, ?_, by norm_num, by norm_num [GATPOLY_WIDTH]⟩
  simp only [R2R.draw_nmos, List.get?]
  norm_num [CONT_SIZE, CONT_ENC_ACTIV, GATPOLY_EXT]

/-- C3, amended: `draw_nmos` neither validates nor clamps — for every origin,
width and gate length (including below-minimum ones) it returns normally with
exactly 7 rectangles, and the emitted gate poly rectangle spans exactly the
requested gate length `l`. -/
theorem C3_no_validation_exact_gate (x y w l : ℚ) :
    (R2R.draw_nmos x y w l).emits.length = 7 ∧
    (R2R.draw_nmos x y w l).emits.get? 2 =
      some ⟨L_GATPOLY, ⟨x + (CONT_SIZE + 2 * CONT_ENC_ACTIV), y - GATPOLY_EXT,
                        x + (CONT_SIZE + 2 * CONT_ENC_ACTIV) + l, y + w + GATPOLY_EXT⟩⟩ := by
  exact ⟨rfl, rfl⟩

/-- C10: the vertical resistor builder is the geometric transpose of the
horizontal one — for every origin, body length and width it emits exactly the
transposed rectangle list (same layers, same order, x/y offsets from the
origin swapped), returns the transposed pair of contact centres, and returns
the same total length. -/
theorem C10_resistor_transpose (x y length width : ℚ) :
    (R2R.draw_resistor_v x y length width).emits =
      (R2R.draw_resistor_h x y length width).emits.map (transposeEmit x y) ∧
    (R2R.draw_resistor_v x y length width).c1 =
      transposePt x y (R2R.draw_resistor_h x y length width).c1 ∧
    (R2R.draw_resistor_v x y length width).c2 =
      transposePt x y (R2R.draw_resistor_h x y length width).c2 ∧
    (R2R.draw_resistor_v x y length width).total =
      (R2R.draw_resistor_h x y length width).total := by
  refine ⟨?_, ?_, ?_, rfl⟩
  · simp only [R2R.draw_resistor_h, R2R.draw_resistor_v, transposeEmit, transposeRect,
      List.map, Emit.mk.injEq, Rect.mk.injEq, List.cons.injEq, and_true, true_and]
    norm_num
    constructor <;> [skip; constructor] <;> ring_nf <;> norm_num
  · simp only [R2R.draw_resistor_h, R2R.draw_resistor_v, transposePt, Prod.mk.injEq]
    constructor <;> ring
  · simp only [R2R.draw_resistor_h, R2R.draw_resistor_v, transposePt, Prod.mk.injEq]
    constructor <;> ring

/-- C8: the 8-bit R-2R DAC macro carries exactly 8 digital-input labels
`d[0]`..`d[7]` plus one analog output label `vout` (and the `vdd`/`vss` power
labels), the dual-channel bias DAC carries exactly 4 digital-input labels and
one analog output label per channel (plus power labels), and within each
macro no two labels are stored at identical coordinates. -/
theorem C8_pin_labels :
    (R2R.build_r2r_dac.labels.map (fun lb => lb.name) =
      ["d[0]", "d[1]", "d[2]", "d[3]", "d[4]", "d[5]", "d[6]", "d[7]",
       "vout", "vdd", "vss"]) ∧
    (R2R.build_r2r_dac.labels.map (fun lb => (lb.cx, lb.cy))).Nodup ∧
    (BiasDac.build_bias_dac.labels.map (fun lb => lb.name) =
      ["d_fc[3]", "d_fc[2]", "d_fc[1]", "d_fc[0]", "d_q[3]", "d_q[2]", "d_q[1]", "d_q[0]",
       "vout_fc", "vout_q", "vdd", "vss"]) ∧
    (BiasDac.build_bias_dac.labels.map (fun lb => (lb.cx, lb.cy))).Nodup := by
  have h1 : R2R.build_r2r_dac.labels.map (fun lb => (lb.cx, lb.cy)) =
      [(250, 4000), (250, 10000), (250, 16000), (250, 22000), (250, 28000),
       (250, 34000), (250, 40000), (250, 46000), (44750, 30000), (22500, 59000),
       (22500, 1000)] := by
    norm_num [R2R.build_r2r_dac, R2R.pin_calls, pinCallLabel, add_pin_label, rectDb, um,
      pyround, List.range_succ, R2R.vout_pin_y, R2R.MACRO_W, R2R.MACRO_H, R2R.NBITS]
    decide
  have h2 : BiasDac.build_bias_dac.labels.map (fun lb => (lb.cx, lb.cy)) =
      [(250, 34500), (250, 31000), (250, 27500), (250, 24000),
       (250, 14500), (250, 11000), (250, 7500), (250, 4000),
       (34750, 30000), (34750, 12000), (17500, 39000), (17500, 1000)] := by
    norm_num [BiasDac.build_bias_dac, BiasDac.pin_calls, BiasDac.fcChan, BiasDac.qChan,
      BiasDac.build_channel, pinCallLabel, add_pin_label, rectDb, um, pyround,
      List.range_succ, BiasDac.vout_fc_pin_y, BiasDac.vout_q_pin_y,
      BiasDac.MACRO_W, BiasDac.MACRO_H, BiasDac.NBITS]
    decide
  exact ⟨rfl, by rw [h1]; decide, rfl, by rw [h2]; decide⟩

theorem sublist_append_extend {l a b : List Emit} (h : l.Sublist a) :
    l.Sublist (a ++ b) :=
  h.trans (List.sublist_append_left _ _)

theorem series_sublist_bitEmits (i b : ℕ) :
    ((R2R.draw_resistor_h (R2R.xc i) R2R.series_y R2R.R_LENGTH).emits).Sublist
      (R2R.bitEmits i b) := by
  simp only [R2R.bitEmits]
  exact sublist_append_extend (sublist_append_extend (sublist_append_extend
    (sublist_append_extend (sublist_append_extend (sublist_append_extend
      (List.sublist_append_left _ _))))))

theorem shunt_sublist_bitEmits (i b : ℕ) :
    ((R2R.draw_resistor_v
        ((R2R.draw_resistor_h (R2R.xc i) R2R.series_y R2R.R_LENGTH).c2.1 - R2R.R_WIDTH / 2)
        ((R2R.draw_resistor_h (R2R.xc i) R2R.series_y R2R.R_LENGTH).c2.2 - R2R.r2_total_h - 0.5)
        R2R.R2_LENGTH).emits).Sublist (R2R.bitEmits i b) := by
  simp only [R2R.bitEmits]
  exact sublist_append_extend (sublist_append_extend (sublist_append_extend
    (sublist_append_extend (sublist_append_extend
      (List.sublist_append_right _ _)))))

theorem r2r_emits_eq : R2R.build_r2r_dac.emits =
    R2R.chainEmits ++ R2R.tapEmits ++ R2R.voutEmits ++ R2R.railEmits ++
      R2R.pin_calls.map pinCallEmit ++
      [⟨L_PRBND, ⟨0, 0, R2R.MACRO_W, R2R.MACRO_H⟩⟩] := rfl

theorem bias_emits_eq : BiasDac.build_bias_dac.emits =
    [⟨L_METAL3, ⟨0, BiasDac.MACRO_H - 2, BiasDac.MACRO_W, BiasDac.MACRO_H⟩⟩,
     ⟨L_METAL3, ⟨0, 0, BiasDac.MACRO_W, 2⟩⟩] ++
      BiasDac.fcChan.emits ++ BiasDac.qChan.emits ++
      emitConcat (fun xt => draw_ptap xt 16) BiasDac.bias_tap_xs ++
      emitConcat (fun xt => draw_ptap xt 2.5) BiasDac.bias_tap_xs ++
      BiasDac.voutFcEmits ++ BiasDac.voutQEmits ++
      BiasDac.pin_calls.map pinCallEmit ++
      [⟨L_PRBND, ⟨0, 0, BiasDac.MACRO_W, BiasDac.MACRO_H⟩⟩] := rfl

theorem sar_emits_eq (fsqrt : ℚ → ℚ) : (SarAdc.build_sar_adc fsqrt).emits =
    SarAdc.capEmits fsqrt ++
      (SarAdc.draw_nmos_transistor 2 22 3 0.13).emits ++
      (SarAdc.draw_strongarm_comparator 27 25).emits ++
      SarAdc.draw_sar_logic_block 27 4 SarAdc.SAR_W SarAdc.SAR_H ++
      SarAdc.sarTapEmits ++ SarAdc.busEmits ++
      [⟨L_METAL3, ⟨0, SarAdc.MACRO_H - 2, SarAdc.MACRO_W, SarAdc.MACRO_H⟩⟩,
       ⟨L_METAL3, ⟨0, 0, SarAdc.MACRO_W, 2⟩⟩] ++
      SarAdc.pin_calls.map pinCallEmit ++
      [⟨L_PRBND, ⟨0, 0, SarAdc.MACRO_W, SarAdc.MACRO_H⟩⟩] := rfl

theorem chain_sublist_build : R2R.chainEmits.Sublist R2R.build_r2r_dac.emits := by
  rw [r2r_emits_eq]
  exact sublist_append_extend (sublist_append_extend (sublist_append_extend
    (sublist_append_extend (List.sublist_append_left _ _))))

theorem bit_mem_pairs {i : ℕ} (h : i < 8) :
    (i, R2R.NBITS - 1 - i) ∈ (List.range R2R.NBITS).map (fun i => (i, R2R.NBITS - 1 - i)) :=
  List.mem_map.mpr ⟨i, List.mem_range.mpr h, rfl⟩

theorem bitEmits_sublist_chain {i : ℕ} (h : i < 8) :
    (R2R.bitEmits i (R2R.NBITS - 1 - i)).Sublist R2R.chainEmits := by
  unfold R2R.chainEmits
  exact @sublist_emitConcat (ℕ × ℕ) (fun p => R2R.bitEmits p.1 p.2)
    (i, R2R.NBITS - 1 - i) ((List.range R2R.NBITS).map (fun i => (i, R2R.NBITS - 1 - i)))
    (bit_mem_pairs h)

/-- C4: in `build_r2r_dac` every one of the 8 series resistors is drawn with
body length `R_LENGTH = R_TARGET / RHIGH_SHEET_R * R_WIDTH`
(= 2000 / 1300 × 2 ≈ 3.08 µm) and every one of the 8 shunt resistors with
exactly double that length: for each bit position `i < 8` the full geometry of
`draw_resistor_h` at the series position with length `R_LENGTH`, and of
`draw_resistor_v` at the shunt position below the junction with length
`R2_LENGTH = 2 * R_LENGTH`, occurs in the emitted cell. -/
theorem C4_resistor_lengths (i : ℕ) (h : i < 8) :
    R2R.R_LENGTH = R2R.R_TARGET / R2R.RHIGH_SHEET_R * R2R.R_WIDTH ∧
    R2R.R2_LENGTH = 2 * R2R.R_LENGTH ∧
    (307 / 100 : ℚ) < R2R.R_LENGTH ∧ R2R.R_LENGTH < 308 / 100 ∧
    ((R2R.draw_resistor_h (R2R.xc i) R2R.series_y R2R.R_LENGTH).emits).Sublist
      R2R.build_r2r_dac.emits ∧
    ((R2R.draw_resistor_v
        ((R2R.draw_resistor_h (R2R.xc i) R2R.series_y R2R.R_LENGTH).c2.1 - R2R.R_WIDTH / 2)
        ((R2R.draw_resistor_h (R2R.xc i) R2R.series_y R2R.R_LENGTH).c2.2 - R2R.r2_total_h - 0.5)
        R2R.R2_LENGTH).emits).Sublist R2R.build_r2r_dac.emits := by
  have hbit : (R2R.bitEmits i (R2R.NBITS - 1 - i)).Sublist R2R.chainEmits :=
    bitEmits_sublist_chain h
  refine ⟨rfl, ?_, ?_, ?_, ?_, ?_⟩
  · rw [R2R.R2_LENGTH]; ring
  · norm_num [R2R.R_LENGTH, R2R.R_TARGET, R2R.RHIGH_SHEET_R, R2R.R_WIDTH]
  · norm_num [R2R.R_LENGTH, R2R.R_TARGET, R2R.RHIGH_SHEET_R, R2R.R_WIDTH]
  · exact ((series_sublist_bitEmits i _).trans hbit).trans chain_sublist_build
  · exact ((shunt_sublist_bitEmits i _).trans hbit).trans chain_sublist_build

/-- C4, witness at bit position 0. -/
theorem C4_witness :
    R2R.R_LENGTH = R2R.R_TARGET / R2R.RHIGH_SHEET_R * R2R.R_WIDTH ∧
    R2R.R2_LENGTH = 2 * R2R.R_LENGTH ∧
    (307 / 100 : ℚ) < R2R.R_LENGTH ∧ R2R.R_LENGTH < 308 / 100 ∧
    ((R2R.draw_resistor_h (R2R.xc 0) R2R.series_y R2R.R_LENGTH).emits).Sublist
      R2R.build_r2r_dac.emits ∧
    ((R2R.draw_resistor_v
        ((R2R.draw_resistor_h (R2R.xc 0) R2R.series_y R2R.R_LENGTH).c2.1 - R2R.R_WIDTH / 2)
        ((R2R.draw_resistor_h (R2R.xc 0) R2R.series_y R2R.R_LENGTH).c2.2 - R2R.r2_total_h - 0.5)
        R2R.R2_LENGTH).emits).Sublist R2R.build_r2r_dac.emits :=
  C4_resistor_lengths 0 (by norm_num)

/-- C2: with the Substrate Tie primitive modelled from the spec (its
definition is absent from the sources, only its call sites exist), each of the
three macro drivers completes its synthesis pass and hands back its finished
named cell, and the tie structure appears in the cell at every requested
placement coordinate. -/
theorem C2_substrate_ties :
    R2R.build_r2r_dac.cellName = "r2r_dac_8bit" ∧
    (∀ xt ∈ R2R.tap_xs, ∀ e ∈ draw_ptap xt 36, e ∈ R2R.build_r2r_dac.emits) ∧
    BiasDac.build_bias_dac.cellName = "bias_dac_2ch" ∧
    (∀ xt ∈ BiasDac.bias_tap_xs,
      (∀ e ∈ draw_ptap xt 16, e ∈ BiasDac.build_bias_dac.emits) ∧
      (∀ e ∈ draw_ptap xt 2.5, e ∈ BiasDac.build_bias_dac.emits)) ∧
    (∀ fsqrt : ℚ → ℚ, (SarAdc.build_sar_adc fsqrt).cellName = "sar_adc_8bit" ∧
      SarAdc.sarTapEmits.Sublist (SarAdc.build_sar_adc fsqrt).emits) := by
  refine ⟨rfl, ?_, rfl, ?_, ?_⟩
  · intro xt hxt e he
    have hmem : e ∈ R2R.tapEmits := mem_emitConcat hxt he
    rw [r2r_emits_eq]
    simp only [List.mem_append]
    tauto
  · intro xt hxt
    constructor
    · intro e he
      have hmem : e ∈ emitConcat (fun xt => draw_ptap xt 16) BiasDac.bias_tap_xs :=
        mem_emitConcat hxt he
      rw [bias_emits_eq]
      simp only [List.mem_append]
      tauto
    · intro e he
      have hmem : e ∈ emitConcat (fun xt => draw_ptap xt 2.5) BiasDac.bias_tap_xs :=
        mem_emitConcat hxt he
      rw [bias_emits_eq]
      simp only [List.mem_append]
      tauto
  · intro fsqrt
    refine ⟨rfl, ?_⟩
    rw [sar_emits_eq]
    exact sublist_append_extend (sublist_append_extend (sublist_append_extend
      (sublist_append_extend (List.sublist_append_right _ _))))

theorem svf_emits_eq : Svf.build_svf.emits =
    [⟨L_METAL3, ⟨0, Svf.MACRO_H - 2, Svf.MACRO_W, Svf.MACRO_H⟩⟩,
     ⟨L_METAL3, ⟨0, 0, Svf.MACRO_W, 2⟩⟩] ++
      Svf.ota_sum.emits ++ Svf.ota_int1.emits ++ Svf.ota_int2.emits ++ Svf.ota_damp.emits ++
      Svf.otaVddEmits ++ Svf.otaVssEmits ++
      Svf.bias_fc.emits ++ Svf.bias_q.emits ++
      Svf.fcBusEmits ++ Svf.qBusEmits ++ Svf.biasVssEmits ++
      Svf.c1.emits ++ Svf.c2.emits ++
      Svf.signalRouteEmits ++
      Svf.mux.emits ++
      Svf.pinRouteEmits ++
      Svf.pin_calls.map pinCallEmit ++ [⟨Svf.L_SVFBND, ⟨0, 0, Svf.MACRO_W, Svf.MACRO_H⟩⟩] := rfl

/-- C9: three of the four macro drivers (`build_r2r_dac`, `build_bias_dac`,
`build_sar_adc`) end synthesis with a boundary rectangle covering the full
macro extent on the reserved PR-boundary layer (189, 0); `build_svf` also ends
with a full-extent boundary rectangle, but places it on layer (0, 0) — a
different layer from the one the other drivers reserve for the placement
boundary. -/
theorem C9_boundary_layers :
    R2R.build_r2r_dac.emits.getLast? =
      some ⟨L_PRBND, ⟨0, 0, R2R.MACRO_W, R2R.MACRO_H⟩⟩ ∧
    BiasDac.build_bias_dac.emits.getLast? =
      some ⟨L_PRBND, ⟨0, 0, BiasDac.MACRO_W, BiasDac.MACRO_H⟩⟩ ∧
    (∀ fsqrt : ℚ → ℚ, (SarAdc.build_sar_adc fsqrt).emits.getLast? =
      some ⟨L_PRBND, ⟨0, 0, SarAdc.MACRO_W, SarAdc.MACRO_H⟩⟩) ∧
    Svf.build_svf.emits.getLast? =
      some ⟨Svf.L_SVFBND, ⟨0, 0, Svf.MACRO_W, Svf.MACRO_H⟩⟩ ∧
    Svf.L_SVFBND ≠ L_PRBND := by
  refine ⟨?_, ?_, ?_, ?_, by decide⟩
  · rw [r2r_emits_eq]
    exact List.getLast?_concat _
  · rw [bias_emits_eq]
    exact List.getLast?_concat _
  · intro fsqrt
    rw [sar_emits_eq]
    exact List.getLast?_concat _
  · rw [svf_emits_eq]
    exact List.getLast?_concat _

theorem evalWsRuleSt_cell {R : Type} (ops : Drc.GeomOps R) (r : Drc.WsRule)
    (c : Drc.DrcCell) : (Drc.evalWsRuleSt ops r c).2 = c := by
  simp only [Drc.evalWsRuleSt, Drc.readLayer]
  split <;> rfl

theorem evalEncRuleSt_cell {R : Type} (ops : Drc.GeomOps R) (r : Drc.EncRule)
    (c : Drc.DrcCell) : (Drc.evalEncRuleSt ops r c).2 = c := by
  simp only [Drc.evalEncRuleSt, Drc.readLayer]
  split
  · rfl
  · split <;> rfl

theorem evalWsRuleSt_fst {R : Type} (ops : Drc.GeomOps R) (r : Drc.WsRule)
    (c : Drc.DrcCell) : (Drc.evalWsRuleSt ops r c).1 = Drc.evalWsRule ops c r := by
  simp only [Drc.evalWsRuleSt, Drc.evalWsRule, Drc.readLayer]
  split <;> rfl

theorem evalEncRuleSt_fst {R : Type} (ops : Drc.GeomOps R) (r : Drc.EncRule)
    (c : Drc.DrcCell) : (Drc.evalEncRuleSt ops r c).1 = Drc.evalEncRule ops c r := by
  simp only [Drc.evalEncRuleSt, Drc.evalEncRule, Drc.readLayer]
  split
  · rfl
  · split <;> rfl

theorem collectSt_cell {α R : Type}
    (step : α → Drc.DrcCell → Option (Drc.RuleResult R) × Drc.DrcCell)
    (hs : ∀ r c, (step r c).2 = c) :
    ∀ (rs : List α) (c : Drc.DrcCell), (Drc.collectSt step rs c).2 = c := by
  intro rs
  induction rs with
  | nil => intro c; rfl
  | cons r rest ih =>
    intro c
    have h1 := hs r c
    cases hstep : step r c with
    | mk o c' =>
      rw [hstep] at h1
      have h2 := ih c'
      simp only [Drc.collectSt, hstep]
      cases o <;> simp_all

theorem collectSt_fst {α R : Type}
    (step : α → Drc.DrcCell → Option (Drc.RuleResult R) × Drc.DrcCell)
    (hs : ∀ r c, (step r c).2 = c) :
    ∀ (rs : List α) (c : Drc.DrcCell),
      (Drc.collectSt step rs c).1 = Drc.collect (fun r => (step r c).1) rs := by
  intro rs
  induction rs with
  | nil => intro c; rfl
  | cons r rest ih =>
    intro c
    have h1 := hs r c
    cases hstep : step r c with
    | mk o c' =>
      rw [hstep] at h1
      simp only at h1
      simp only [Drc.collectSt, Drc.collect, hstep, h1]
      cases o <;> simp_all [ih]

/-- C7: the rule checker is read-only and deterministic — threading the cell
through every operation the checker performs hands the cell back unchanged,
the threaded run computes exactly the pure report (rule names, descriptions,
per-rule counts, markers, and the total), and running the checker a second
time on the cell handed back by the first run yields the identical report. -/
theorem C7_checker_readonly_deterministic {R : Type} (ops : Drc.GeomOps R)
    (c : Drc.DrcCell) :
    (Drc.run_drc_st ops c).2 = c ∧
    (Drc.run_drc_st ops c).1 = Drc.run_drc ops c ∧
    (Drc.run_drc_st ops ((Drc.run_drc_st ops c).2)).1 = (Drc.run_drc_st ops c).1 := by
  have hws : ∀ r c, (Drc.evalWsRuleSt ops r c).2 = c := fun r c => evalWsRuleSt_cell ops r c
  have henc : ∀ r c, (Drc.evalEncRuleSt ops r c).2 = c := fun r c => evalEncRuleSt_cell ops r c
  have e1 : (Drc.collectSt (Drc.evalWsRuleSt ops) Drc.RULES c).2 = c :=
    collectSt_cell _ hws _ _
  have hsnd : (Drc.run_drc_st ops c).2 = c := by
    simp only [Drc.run_drc_st]
    rw [collectSt_cell _ henc, e1]
  have hfst : (Drc.run_drc_st ops c).1 = Drc.run_drc ops c := by
    simp only [Drc.run_drc_st, Drc.run_drc]
    rw [e1]
    rw [collectSt_fst _ hws, collectSt_fst _ henc]
    have hw : (fun r => (Drc.evalWsRuleSt ops r c).1) = Drc.evalWsRule ops c :=
      funext (fun r => evalWsRuleSt_fst ops r c)
    have he : (fun r => (Drc.evalEncRuleSt ops r c).1) = Drc.evalEncRule ops c :=
      funext (fun r => evalEncRuleSt_fst ops r c)
    rw [hw, he]
  exact ⟨hsnd, hfst, by rw [hsnd]⟩

/-- C6: a width or spacing rule whose layer holds no geometry in the cell is
skipped by the checker — its evaluation yields no report line, so wherever it
sits in the rule table it leaves the report and the running violation total
unchanged (skipped, not failed, and contributing zero). -/
theorem C6_empty_layer_skipped {R : Type} (ops : Drc.GeomOps R) (c : Drc.DrcCell)
    (r : Drc.WsRule) (l₁ l₂ : List Drc.WsRule)
    (h : ops.isEmpty (ops.fromRects (Drc.layerRects c r.layer)) = true) :
    Drc.evalWsRule ops c r = none ∧
    Drc.collect (Drc.evalWsRule ops c) (l₁ ++ r :: l₂) =
      Drc.collect (Drc.evalWsRule ops c) (l₁ ++ l₂) := by
  have hnone : Drc.evalWsRule ops c r = none := by
    simp only [Drc.evalWsRule]
    rw [if_pos h]
  refine ⟨hnone, ?_⟩
  induction l₁ with
  | nil => simp only [List.nil_append, Drc.collect, hnone]
  | cons a as ih =>
    simp only [List.cons_append, Drc.collect, List.append_eq]
    simp only [ih]

/-- C6, witness: the Activ width rule on an empty cell under the finite-set
test engine. -/
theorem C6_witness :
    Drc.evalWsRule Drc.finOps [] wsTestRule = none ∧
    Drc.collect (Drc.evalWsRule Drc.finOps []) ([] ++ wsTestRule :: []) =
      Drc.collect (Drc.evalWsRule Drc.finOps []) ([] ++ []) :=
  C6_empty_layer_skipped Drc.finOps [] wsTestRule [] [] (by decide)

theorem isEmpty_congr {R : Type} (ops : Drc.GeomOps R) {a b : R}
    (h : ops.denote a = ops.denote b) : ops.isEmpty a = ops.isEmpty b := by
  cases ha : ops.isEmpty a <;> cases hb : ops.isEmpty b
  · rfl
  · have hbe := (ops.isEmpty_iff b).mp hb
    have : ops.isEmpty a = true := (ops.isEmpty_iff a).mpr (h.trans hbe)
    rw [this] at ha
    cases ha
  · have hae := (ops.isEmpty_iff a).mp ha
    have : ops.isEmpty b = true := (ops.isEmpty_iff b).mpr (h.symm.trans hae)
    rw [this] at hb
    cases hb
  · rfl

theorem layerRects_cons_same (c : Drc.DrcCell) (l : Layer) (b : BoxDb) :
    Drc.layerRects ((l, b) :: c) l = b :: Drc.layerRects c l := by
  simp [Drc.layerRects]

theorem layerRects_cons_other (c : Drc.DrcCell) (l l' : Layer) (b : BoxDb)
    (h : l ≠ l') : Drc.layerRects ((l, b) :: c) l' = Drc.layerRects c l' := by
  simp [Drc.layerRects, h]

theorem bool_eq_false {b : Bool} (h : ¬ b = true) : b = false := by
  cases b
  · rfl
  · exact absurd rfl h

/-- C5: the enclosure pass computes, for every rule, the violation set as
((inner region ∩ outer region) grown by the rounded threshold margin) minus
the outer region; it skips the rule entirely when the inner region, the outer
region, or their intersection is empty; and inner geometry that does not
overlap the outer layer at all is never flagged — adding a disjoint inner box
to the cell leaves the rule's skip status and the violation set (as a point
set) unchanged. -/
theorem C5_enclosure_check {R : Type} (ops : Drc.GeomOps R) (c : Drc.DrcCell)
    (r : Drc.EncRule) :
    ((ops.isEmpty (ops.fromRects (Drc.layerRects c r.inner)) = true ∨
      ops.isEmpty (ops.fromRects (Drc.layerRects c r.outer)) = true ∨
      ops.isEmpty (ops.inter (ops.fromRects (Drc.layerRects c r.inner))
        (ops.fromRects (Drc.layerRects c r.outer))) = true) →
      Drc.evalEncRule ops c r = none) ∧
    (ops.isEmpty (ops.fromRects (Drc.layerRects c r.inner)) = false →
     ops.isEmpty (ops.fromRects (Drc.layerRects c r.outer)) = false →
     ops.isEmpty (ops.inter (ops.fromRects (Drc.layerRects c r.inner))
        (ops.fromRects (Drc.layerRects c r.outer))) = false →
      Drc.evalEncRule ops c r =
        some ⟨r.name, r.desc,
          ops.size (ops.diff (ops.sized (pyround (r.minEnc / Drc.dbu))
            (ops.inter (ops.fromRects (Drc.layerRects c r.inner))
              (ops.fromRects (Drc.layerRects c r.outer))))
            (ops.fromRects (Drc.layerRects c r.outer))),
          ops.diff (ops.sized (pyround (r.minEnc / Drc.dbu))
            (ops.inter (ops.fromRects (Drc.layerRects c r.inner))
              (ops.fromRects (Drc.layerRects c r.outer))))
            (ops.fromRects (Drc.layerRects c r.outer))⟩) ∧
    (∀ b : BoxDb, r.inner ≠ r.outer → 0 ≤ r.minEnc →
      Drc.boxPts b ∩ ops.denote (ops.fromRects (Drc.layerRects c r.outer)) = ∅ →
      (Drc.evalEncRule ops ((r.inner, b) :: c) r).map (fun rr => ops.denote rr.markers) =
        (Drc.evalEncRule ops c r).map (fun rr => ops.denote rr.markers)) := by
  refine ⟨?_, ?_, ?_⟩
  · intro h
    simp only [Drc.evalEncRule]
    rcases h with h | h | h
    · simp [h]
    · simp [h]
    · by_cases h1 : ops.isEmpty (ops.fromRects (Drc.layerRects c r.inner)) = true
      · simp [h1]
      · cases hO : ops.isEmpty (ops.fromRects (Drc.layerRects c r.outer)) <;>
          simp [bool_eq_false h1, hO, h]
  · intro h1 h2 h3
    simp only [Drc.evalEncRule]
    simp [h1, h2, h3]
  · intro b hne hminEnc hdisj
    have hlrI := layerRects_cons_same c r.inner b
    have hlrO := layerRects_cons_other c r.inner r.outer b hne
    simp only [Drc.evalEncRule, hlrI, hlrO]
    set I := ops.fromRects (Drc.layerRects c r.inner) with hI
    set O := ops.fromRects (Drc.layerRects c r.outer) with hO
    set J := ops.fromRects (b :: Drc.layerRects c r.inner) with hJ
    have hdJ : ops.denote J = Drc.boxPts b ∪ ops.denote I := by
      rw [hJ, hI, ops.denote_fromRects, ops.denote_fromRects]
      rfl
    have hdInter : ops.denote (ops.inter J O) = ops.denote (ops.inter I O) := by
      rw [ops.denote_inter, ops.denote_inter, hdJ,
        Set.union_inter_distrib_right, hdisj, Set.empty_union]
    have hIntEq : ops.isEmpty (ops.inter J O) = ops.isEmpty (ops.inter I O) :=
      isEmpty_congr ops hdInter
    by_cases hOe : ops.isEmpty O = true
    · simp [hOe]
    · have hOf : ops.isEmpty O = false := bool_eq_false hOe
      by_cases hIe : ops.isEmpty I = true
      · have hIemp : ops.denote I = ∅ := (ops.isEmpty_iff I).mp hIe
        have hIntE : ops.isEmpty (ops.inter J O) = true := by
          apply (ops.isEmpty_iff _).mpr
          rw [hdInter, ops.denote_inter, hIemp, Set.empty_inter]
        by_cases hJe : ops.isEmpty J = true
        · simp [hIe, hJe]
        · simp [hIe, bool_eq_false hJe, hOf, hIntE]
      · have hIf : ops.isEmpty I = false := bool_eq_false hIe
        have hJf : ops.isEmpty J = false := by
          apply bool_eq_false
          intro hx
          have h0 := (ops.isEmpty_iff J).mp hx
          rw [hdJ] at h0
          exact hIe ((ops.isEmpty_iff I).mpr (Set.union_empty_iff.mp h0).2)
        by_cases hInt : ops.isEmpty (ops.inter I O) = true
        · have hIntJ : ops.isEmpty (ops.inter J O) = true := hIntEq.trans hInt
          simp [hIf, hJf, hOf, hInt, hIntJ]
        · have hIntf : ops.isEmpty (ops.inter I O) = false := bool_eq_false hInt
          have hIntJf : ops.isEmpty (ops.inter J O) = false := hIntEq.trans hIntf
          have hd : (0 : ℤ) ≤ pyround (r.minEnc / Drc.dbu) := by
            apply pyround_nonneg
            apply div_nonneg hminEnc
            norm_num [Drc.dbu]
          have hmark : ops.denote (ops.diff (ops.sized (pyround (r.minEnc / Drc.dbu))
                (ops.inter J O)) O) =
              ops.denote (ops.diff (ops.sized (pyround (r.minEnc / Drc.dbu))
                (ops.inter I O)) O) := by
            rw [ops.denote_diff, ops.denote_diff, ops.denote_sized _ _ hd,
              ops.denote_sized _ _ hd, hdInter]
          simp [hIf, hJf, hOf, hIntf, hIntJf, hmark]

/-- C5, witness: under the finite-set test engine — the rule is skipped on an
empty cell; it produces a report line on a cell with a contact inside Activ;
and adding a far-away inner box changes neither skip status nor violation
set. -/
theorem C5_witness :
    Drc.evalEncRule Drc.finOps [] encTestRule = none ∧
    (Drc.evalEncRule Drc.finOps encTestCell encTestRule).isSome = true ∧
    (Drc.evalEncRule Drc.finOps ((encTestRule.inner, encFarBox) :: encTestCell)
        encTestRule).map (fun rr => Drc.finOps.denote rr.markers) =
      (Drc.evalEncRule Drc.finOps encTestCell encTestRule).map
        (fun rr => Drc.finOps.denote rr.markers) := by
  refine ⟨?_, ?_, ?_⟩
  · exact (C5_enclosure_check Drc.finOps [] encTestRule).1 (Or.inl (by decide))
  · rw [(C5_enclosure_check Drc.finOps encTestCell encTestRule).2.1
      (by decide) (by decide) (by decide)]
    rfl
  · apply (C5_enclosure_check Drc.finOps encTestCell encTestRule).2.2 encFarBox
      (by decide) (by norm_num [encTestRule])
    have hlr : Drc.layerRects encTestCell encTestRule.outer = [⟨0, 0, 2, 2⟩] := by decide
    apply Set.eq_empty_iff_forall_not_mem.mpr
    rintro ⟨px, py⟩ ⟨h1, h2⟩
    simp only [Drc.boxPts, encFarBox, Set.mem_setOf_eq] at h1
    rw [hlr] at h2
    have h2' : (px, py) ∈ Drc.finFromRects [⟨0, 0, 2, 2⟩] := h2
    simp only [Drc.finFromRects, List.foldr, Drc.boxFin, Finset.mem_union,
      Finset.not_mem_empty, or_false, Finset.mem_product, Finset.mem_Icc] at h2'
    omega

/-- C2, witness: the tie's Activ square is present at the first requested tap
coordinate of the R-2R DAC and of the bias DAC. -/
theorem C2_witness :
    (⟨L_ACTIV, ⟨3 - 0.25, 36 - 0.25, 3 + 0.25, 36 + 0.25⟩⟩ : Emit) ∈
      R2R.build_r2r_dac.emits ∧
    (⟨L_ACTIV, ⟨5 - 0.25, 16 - 0.25, 5 + 0.25, 16 + 0.25⟩⟩ : Emit) ∈
      BiasDac.build_bias_dac.emits :=
  ⟨C2_substrate_ties.2.1 3 (List.mem_cons_self _ _) _ (List.mem_cons_self _ _),
   (C2_substrate_ties.2.2.2.1 5 (List.mem_cons_self _ _)).1 _ (List.mem_cons_self _ _)⟩
